import Mathlib

/-
  Verification development for the Descent physics engine.

  Shallow embedding of the collision / rigid-body code:
    * vectors are triples of rationals (JS numbers are modelled as exact
      rationals; all scenario constants are dyadic, where the float and the
      rational computation coincide);
    * `Math.sqrt` has no exact counterpart on the rationals, so every
      function that calls `.length()` / `.normalize()` / `.distanceTo()`
      is parametrised by a square-root oracle `rt : ℚ → ℚ`; theorems either
      hold for every `rt` or carry hypotheses that pin `rt` down on the
      values at which it is consulted;
    * THREE.Vector3.normalize divides by `length || 1`, and this is mirrored
      exactly (a zero-length vector stays zero);
    * mutation is modelled by returning updated copies of the state records.

  Sources embedded below: the Triangle / AABB / BVH / PhysicsObject module
  (game physics file, "part_006"), its recursive-query variant ("part_007"),
  physics.js (plane bounce, sphere-sphere resolution), collisionmanager.js,
  and — modelled from the spec, since the class itself is not in the
  repository sources — the SpatialHashGrid.
-/

/-- A 3-component vector of rationals, mirroring THREE.Vector3. -/
structure Vec3 where
  x : ℚ
  y : ℚ
  z : ℚ
deriving DecidableEq, Repr

namespace Vec3

def add (a b : Vec3) : Vec3 := ⟨a.x + b.x, a.y + b.y, a.z + b.z⟩

def sub (a b : Vec3) : Vec3 := ⟨a.x - b.x, a.y - b.y, a.z - b.z⟩

def multiplyScalar (a : Vec3) (s : ℚ) : Vec3 := ⟨a.x * s, a.y * s, a.z * s⟩

def divideScalar (a : Vec3) (s : ℚ) : Vec3 := a.multiplyScalar (1 / s)

def negate (a : Vec3) : Vec3 := a.multiplyScalar (-1)

def addScaledVector (a v : Vec3) (s : ℚ) : Vec3 :=
  ⟨a.x + v.x * s, a.y + v.y * s, a.z + v.z * s⟩

def dot (a b : Vec3) : ℚ := a.x * b.x + a.y * b.y + a.z * b.z

def cross (a b : Vec3) : Vec3 :=
  ⟨a.y * b.z - a.z * b.y, a.z * b.x - a.x * b.z, a.x * b.y - a.y * b.x⟩

def lengthSq (a : Vec3) : ℚ := a.dot a

def distanceToSquared (a b : Vec3) : ℚ := (a.sub b).lengthSq

/-- Vector length through the square-root oracle. -/
def length (rt : ℚ → ℚ) (a : Vec3) : ℚ := rt a.lengthSq

def distanceTo (rt : ℚ → ℚ) (a b : Vec3) : ℚ := rt (a.distanceToSquared b)

/-- THREE.Vector3.normalize: divide by `length || 1`. -/
def normalize (rt : ℚ → ℚ) (a : Vec3) : Vec3 :=
  divideScalar a (if length rt a = 0 then 1 else length rt a)

def zero : Vec3 := ⟨0, 0, 0⟩

@[simp] theorem add_x (a b : Vec3) : (a.add b).x = a.x + b.x := rfl
@[simp] theorem add_y (a b : Vec3) : (a.add b).y = a.y + b.y := rfl
@[simp] theorem add_z (a b : Vec3) : (a.add b).z = a.z + b.z := rfl
@[simp] theorem sub_x (a b : Vec3) : (a.sub b).x = a.x - b.x := rfl
@[simp] theorem sub_y (a b : Vec3) : (a.sub b).y = a.y - b.y := rfl
@[simp] theorem sub_z (a b : Vec3) : (a.sub b).z = a.z - b.z := rfl
@[simp] theorem mulS_x (a : Vec3) (s : ℚ) : (a.multiplyScalar s).x = a.x * s := rfl
@[simp] theorem mulS_y (a : Vec3) (s : ℚ) : (a.multiplyScalar s).y = a.y * s := rfl
@[simp] theorem mulS_z (a : Vec3) (s : ℚ) : (a.multiplyScalar s).z = a.z * s := rfl
@[simp] theorem addSc_x (a v : Vec3) (s : ℚ) : (a.addScaledVector v s).x = a.x + v.x * s := rfl
@[simp] theorem addSc_y (a v : Vec3) (s : ℚ) : (a.addScaledVector v s).y = a.y + v.y * s := rfl
@[simp] theorem addSc_z (a v : Vec3) (s : ℚ) : (a.addScaledVector v s).z = a.z + v.z * s := rfl
@[simp] theorem cross_x (a b : Vec3) : (a.cross b).x = a.y * b.z - a.z * b.y := rfl
@[simp] theorem cross_y (a b : Vec3) : (a.cross b).y = a.z * b.x - a.x * b.z := rfl
@[simp] theorem cross_z (a b : Vec3) : (a.cross b).z = a.x * b.y - a.y * b.x := rfl

theorem dot_def (a b : Vec3) : a.dot b = a.x * b.x + a.y * b.y + a.z * b.z := rfl

theorem ext_iff {a b : Vec3} : a = b ↔ a.x = b.x ∧ a.y = b.y ∧ a.z = b.z := by
  constructor
  · rintro rfl; exact ⟨rfl, rfl, rfl⟩
  · rintro ⟨hx, hy, hz⟩; cases a; cases b; simp_all

end Vec3

/-- Clamp of a rational into an interval, as `Math.max(lo, Math.min(v, hi))`. -/
def clampQ (v lo hi : ℚ) : ℚ := max lo (min v hi)

/-- Axis-aligned bounding box (fields named as in the source: min/max corners). -/
structure AABB where
  min : Vec3
  max : Vec3
deriving DecidableEq, Repr

namespace AABB

def center (b : AABB) : Vec3 := (b.min.add b.max).multiplyScalar (1 / 2)

/-- The clamped point used by `intersectsSphere`. -/
def closestTo (b : AABB) (c : Vec3) : Vec3 :=
  ⟨clampQ c.x b.min.x b.max.x, clampQ c.y b.min.y b.max.y, clampQ c.z b.min.z b.max.z⟩

/-- AABB.intersectsSphere: clamp the center into the box and compare the
squared distance against radius². -/
def intersectsSphere (b : AABB) (c : Vec3) (r : ℚ) : Prop :=
  (b.closestTo c).distanceToSquared c ≤ r * r

instance (b : AABB) (c : Vec3) (r : ℚ) : Decidable (b.intersectsSphere c r) := by
  unfold intersectsSphere; infer_instance

/-- AABB.union: component-wise min/max. -/
def union (a b : AABB) : AABB :=
  ⟨⟨Min.min a.min.x b.min.x, Min.min a.min.y b.min.y, Min.min a.min.z b.min.z⟩,
   ⟨Max.max a.max.x b.max.x, Max.max a.max.y b.max.y, Max.max a.max.z b.max.z⟩⟩

/-- Membership of a point in a (closed) box. -/
def containsPt (b : AABB) (p : Vec3) : Prop :=
  b.min.x ≤ p.x ∧ p.x ≤ b.max.x ∧ b.min.y ≤ p.y ∧ p.y ≤ b.max.y ∧
  b.min.z ≤ p.z ∧ p.z ≤ b.max.z

end AABB

/-- Triangle primitive; derived properties (edges, normal, centroid, aabb)
are recomputed from the vertices exactly as `updateProperties` does. -/
structure Triangle where
  v0 : Vec3
  v1 : Vec3
  v2 : Vec3
deriving DecidableEq, Repr

namespace Triangle

def edge1 (t : Triangle) : Vec3 := t.v1.sub t.v0

def edge2 (t : Triangle) : Vec3 := t.v2.sub t.v0

/-- The stored unit normal: normalized cross product of the edges. -/
def normal (rt : ℚ → ℚ) (t : Triangle) : Vec3 :=
  (t.edge1.cross t.edge2).normalize rt

def centroid (t : Triangle) : Vec3 :=
  ((t.v0.add t.v1).add t.v2).multiplyScalar (1 / 3)

def computeAABB (t : Triangle) : AABB :=
  ⟨⟨min (min t.v0.x t.v1.x) t.v2.x, min (min t.v0.y t.v1.y) t.v2.y,
    min (min t.v0.z t.v1.z) t.v2.z⟩,
   ⟨max (max t.v0.x t.v1.x) t.v2.x, max (max t.v0.y t.v1.y) t.v2.y,
    max (max t.v0.z t.v1.z) t.v2.z⟩⟩

/-- Ericson-style closest point on a triangle to a point (the
`closestPointToPoint` method shared by the two game-physics files).
Divisions follow the rational convention `q/0 = 0`; every theorem about the
interesting (non-degenerate) denominators carries the hypotheses that make
the embedding agree with the float code. -/
def closestPointToPoint (t : Triangle) (p : Vec3) : Vec3 :=
  let ab := t.edge1
  let ac := t.edge2
  let ap := p.sub t.v0
  let d1 := ab.dot ap
  let d2 := ac.dot ap
  if d1 ≤ 0 ∧ d2 ≤ 0 then t.v0 else
  let bp := p.sub t.v1
  let d3 := ab.dot bp
  let d4 := ac.dot bp
  if d3 ≥ 0 ∧ d4 ≤ d3 then t.v1 else
  let vc := d1 * d4 - d3 * d2
  if vc ≤ 0 ∧ d1 ≥ 0 ∧ d3 ≤ 0 then
    t.v0.add (ab.multiplyScalar (d1 / (d1 - d3)))
  else
  let cp := p.sub t.v2
  let d5 := ab.dot cp
  let d6 := ac.dot cp
  if d6 ≥ 0 ∧ d5 ≤ d6 then t.v2 else
  let vb := d5 * d2 - d1 * d6
  if vb ≤ 0 ∧ d2 ≥ 0 ∧ d6 ≤ 0 then
    t.v0.add (ac.multiplyScalar (d2 / (d2 - d6)))
  else
  let va := d3 * d6 - d5 * d4
  if va ≤ 0 ∧ d4 - d3 ≥ 0 ∧ d5 - d6 ≥ 0 then
    t.v1.add ((t.v2.sub t.v1).multiplyScalar ((d4 - d3) / ((d4 - d3) + (d5 - d6))))
  else
  let denom := 1 / (va + vb + vc)
  let v := vb * denom
  let w := vc * denom
  (t.v0.add (ab.multiplyScalar v)).add (ac.multiplyScalar w)

end Triangle

/-
  Region analysis for the Ericson closest-point routine.

  With `A = ab⬝ab`, `B = ab⬝ac`, `C = ac⬝ac`, `x = d1 = ab⬝ap`,
  `y = d2 = ac⬝ap` one has `d3 = x - A`, `d4 = y - B`, `d5 = x - B`,
  `d6 = y - C`, and the code's region quantities become
  `vc = A*y - B*x`, `vb = C*x - B*y`,
  `va = (x-A)*(y-C) - (x-B)*(y-B) = S - vb - vc` with `S = A*C - B*B`.
  When the six guard checks of `closestPointToPoint` all fail and the
  triangle is non-degenerate (`S > 0`), the three quantities are
  non-negative, so the interior branch really does produce barycentric
  coordinates inside `[0,1]`.
-/

theorem ericson_vc (A B C x y : ℚ) (hA0 : 0 ≤ A) (hC0 : 0 ≤ C)
    (hS : 0 < A * C - B * B)
    (n1 : ¬(x ≤ 0 ∧ y ≤ 0))
    (n2 : ¬(x - A ≥ 0 ∧ y - B ≤ x - A))
    (n3 : ¬(A * y - B * x ≤ 0 ∧ x ≥ 0 ∧ x - A ≤ 0))
    (n4 : ¬(y - C ≥ 0 ∧ x - B ≤ y - C))
    (n5 : ¬(C * x - B * y ≤ 0 ∧ y ≥ 0 ∧ y - C ≤ 0))
    (n6 : ¬((x - A) * (y - C) - (x - B) * (y - B) ≤ 0 ∧
            (y - B) - (x - A) ≥ 0 ∧ (x - B) - (y - C) ≥ 0)) :
    0 ≤ A * y - B * x := by
  by_contra hvc
  push_neg at hvc
  have hA : 0 < A := by nlinarith [sq_nonneg B]
  have hC : 0 < C := by nlinarith [sq_nonneg B]
  have hcases : x < 0 ∨ A < x := by
    by_contra hcon
    push_neg at hcon
    exact n3 ⟨le_of_lt hvc, hcon.1, by linarith [hcon.2]⟩
  rcases hcases with hx | hx
  · have hy : 0 < y := by
      by_contra hy; push_neg at hy; exact n1 ⟨le_of_lt hx, hy⟩
    rcases le_or_lt 0 B with hB | hB
    · nlinarith [mul_pos hA hy, mul_nonneg hB (by linarith : (0:ℚ) ≤ -x)]
    · rcases le_or_lt (C * x - B * y) 0 with hvb | hvb
      · have hyC : C < y := by
          by_contra hyc; push_neg at hyc
          exact n5 ⟨hvb, le_of_lt hy, by linarith⟩
        have hd5 : y - C < x - B := by
          by_contra hd; push_neg at hd; exact n4 ⟨by linarith, hd⟩
        nlinarith [mul_pos (by linarith : (0:ℚ) < x - B) (by linarith : (0:ℚ) < -B),
          mul_pos hA (by linarith : (0:ℚ) < y - C)]
      · have hid : x * (A * C - B * B) = A * (C * x - B * y) + B * (A * y - B * x) := by
          ring
        nlinarith [hid, mul_pos hA hvb,
          mul_pos (by linarith : (0:ℚ) < -B) (by linarith : (0:ℚ) < -(A * y - B * x)),
          mul_neg_of_neg_of_pos hx hS]
  · have hd43 : x - A < y - B := by
      by_contra hd; push_neg at hd; exact n2 ⟨by linarith, hd⟩
    have hBA : A < B := by
      nlinarith [mul_pos hA (by linarith : (0:ℚ) < (y - B) - (x - A))]
    rcases le_or_lt ((x - A) * (y - C) - (x - B) * (y - B)) 0 with hva | hva
    · have hd56 : x - B < y - C := by
        by_contra hd; push_neg at hd
        exact n6 ⟨hva, by linarith, by linarith⟩
      have hd6 : y < C := by
        by_contra hyc; push_neg at hyc
        exact n4 ⟨by linarith, by linarith⟩
      nlinarith [mul_pos hA (by linarith : (0:ℚ) < y - (x + C - B)),
        mul_pos (by linarith : (0:ℚ) < B - A) (by linarith : (0:ℚ) < B - x)]
    · nlinarith [mul_pos hA hva,
        mul_pos (by linarith : (0:ℚ) < B - A) (by linarith : (0:ℚ) < B * x - A * y),
        mul_pos hS (by linarith : (0:ℚ) < x - A)]

theorem ericson_vb (A B C x y : ℚ) (hA0 : 0 ≤ A) (hC0 : 0 ≤ C)
    (hS : 0 < A * C - B * B)
    (n1 : ¬(x ≤ 0 ∧ y ≤ 0))
    (n2 : ¬(x - A ≥ 0 ∧ y - B ≤ x - A))
    (n3 : ¬(A * y - B * x ≤ 0 ∧ x ≥ 0 ∧ x - A ≤ 0))
    (n4 : ¬(y - C ≥ 0 ∧ x - B ≤ y - C))
    (n5 : ¬(C * x - B * y ≤ 0 ∧ y ≥ 0 ∧ y - C ≤ 0))
    (n6 : ¬((x - A) * (y - C) - (x - B) * (y - B) ≤ 0 ∧
            (y - B) - (x - A) ≥ 0 ∧ (x - B) - (y - C) ≥ 0)) :
    0 ≤ C * x - B * y := by
  by_contra hvb
  push_neg at hvb
  have hA : 0 < A := by nlinarith [sq_nonneg B]
  have hC : 0 < C := by nlinarith [sq_nonneg B]
  have hcases : y < 0 ∨ C < y := by
    by_contra hcon
    push_neg at hcon
    exact n5 ⟨le_of_lt hvb, hcon.1, by linarith [hcon.2]⟩
  rcases hcases with hy | hy
  · have hx : 0 < x := by
      by_contra hx; push_neg at hx; exact n1 ⟨hx, le_of_lt hy⟩
    rcases le_or_lt 0 B with hB | hB
    · nlinarith [mul_pos hC hx, mul_nonneg hB (by linarith : (0:ℚ) ≤ -y)]
    · rcases le_or_lt (A * y - B * x) 0 with hvc | hvc
      · have hxA : A < x := by
          by_contra hxa; push_neg at hxa
          exact n3 ⟨hvc, le_of_lt hx, by linarith⟩
        have hd43 : x - A < y - B := by
          by_contra hd; push_neg at hd; exact n2 ⟨by linarith, hd⟩
        nlinarith [mul_pos hA (by linarith : (0:ℚ) < (y - B) - (x - A)),
          mul_pos (by linarith : (0:ℚ) < A - B) (by linarith : (0:ℚ) < x - A)]
      · have hid : y * (A * C - B * B) = B * (C * x - B * y) + C * (A * y - B * x) := by
          ring
        nlinarith [hid, mul_pos hC hvc,
          mul_pos (by linarith : (0:ℚ) < -B) (by linarith : (0:ℚ) < -(C * x - B * y)),
          mul_neg_of_neg_of_pos hy hS]
  · have hd56 : y - C < x - B := by
      by_contra hd; push_neg at hd; exact n4 ⟨by linarith, hd⟩
    rcases le_or_lt B 0 with hB | hB
    · nlinarith [mul_nonneg (by linarith : (0:ℚ) ≤ -B) (by linarith : (0:ℚ) ≤ y - C),
        mul_pos hC (by linarith : (0:ℚ) < x - B)]
    · have hBC : C < B := by
        nlinarith [mul_pos hC (by linarith : (0:ℚ) < (x - B) - (y - C))]
      rcases le_or_lt ((x - A) * (y - C) - (x - B) * (y - B)) 0 with hva | hva
      · have hd43 : y - B < x - A := by
          by_contra hd; push_neg at hd
          exact n6 ⟨hva, by linarith, by linarith⟩
        have hd3 : x < A := by
          by_contra hxa; push_neg at hxa
          exact n2 ⟨by linarith, by linarith⟩
        nlinarith [mul_pos hC (by linarith : (0:ℚ) < x - (y + A - B)),
          mul_pos (by linarith : (0:ℚ) < B - C) (by linarith : (0:ℚ) < B - y)]
      · nlinarith [mul_pos hC hva,
          mul_pos (by linarith : (0:ℚ) < B - C) (by linarith : (0:ℚ) < B * y - C * x),
          mul_pos hS (by linarith : (0:ℚ) < y - C)]

theorem ericson_va (A B C x y : ℚ) (hA0 : 0 ≤ A) (hC0 : 0 ≤ C)
    (hS : 0 < A * C - B * B)
    (hvc : 0 ≤ A * y - B * x) (hvb : 0 ≤ C * x - B * y)
    (n1 : ¬(x ≤ 0 ∧ y ≤ 0))
    (n2 : ¬(x - A ≥ 0 ∧ y - B ≤ x - A))
    (n4 : ¬(y - C ≥ 0 ∧ x - B ≤ y - C))
    (n6 : ¬((x - A) * (y - C) - (x - B) * (y - B) ≤ 0 ∧
            (y - B) - (x - A) ≥ 0 ∧ (x - B) - (y - C) ≥ 0)) :
    0 ≤ (x - A) * (y - C) - (x - B) * (y - B) := by
  by_contra hva
  push_neg at hva
  have hA : 0 < A := by nlinarith [sq_nonneg B]
  have hC : 0 < C := by nlinarith [sq_nonneg B]
  have hD : 0 < A - 2 * B + C := by nlinarith [sq_nonneg (A - B)]
  have hsplit : (y - B) - (x - A) < 0 ∨ (x - B) - (y - C) < 0 := by
    by_contra hcon
    push_neg at hcon
    exact n6 ⟨le_of_lt hva, hcon.1, hcon.2⟩
  rcases hsplit with h43 | h56
  · have h56 : 0 < (x - B) - (y - C) := by linarith
    have hd3 : x < A := by
      by_contra hxa; push_neg at hxa
      exact n2 ⟨by linarith, by linarith⟩
    rcases le_or_lt x 0 with hx | hx
    · have hy : 0 < y := by
        by_contra hy2; push_neg at hy2; exact n1 ⟨hx, hy2⟩
      rcases le_or_lt B 0 with hB | hB
      · linarith
      · nlinarith [mul_pos hB hy, mul_nonneg (le_of_lt hC) (by linarith : (0:ℚ) ≤ -x)]
    · rcases le_or_lt B A with hBA | hBA
      · nlinarith [mul_nonneg (by linarith : (0:ℚ) ≤ A - B)
            (by linarith : (0:ℚ) ≤ (B + x - A) - y),
          mul_pos hD (by linarith : (0:ℚ) < A - x)]
      · nlinarith [mul_nonneg (by linarith : (0:ℚ) ≤ B - A) hvc,
          mul_neg_of_pos_of_neg hA hva,
          mul_pos hS (by linarith : (0:ℚ) < A - x)]
  · have h43 : 0 < (y - B) - (x - A) := by linarith
    have hd6 : y < C := by
      by_contra hyc; push_neg at hyc
      exact n4 ⟨by linarith, by linarith⟩
    rcases le_or_lt y 0 with hy | hy
    · have hx : 0 < x := by
        by_contra hx2; push_neg at hx2; exact n1 ⟨hx2, hy⟩
      rcases le_or_lt B 0 with hB | hB
      · linarith
      · nlinarith [mul_pos hB hx, mul_nonneg (le_of_lt hA) (by linarith : (0:ℚ) ≤ -y)]
    · rcases le_or_lt B C with hBC | hBC
      · nlinarith [mul_nonneg (by linarith : (0:ℚ) ≤ C - B)
            (by linarith : (0:ℚ) ≤ (B + y - C) - x),
          mul_pos hD (by linarith : (0:ℚ) < C - y)]
      · nlinarith [mul_nonneg (by linarith : (0:ℚ) ≤ B - C) hvb,
          mul_neg_of_pos_of_neg hC hva,
          mul_pos hS (by linarith : (0:ℚ) < C - y)]

/-- Lagrange identity for the embedded cross product. -/
theorem crossSq_eq (a b : Vec3) :
    (a.cross b).lengthSq = a.dot a * b.dot b - a.dot b * a.dot b := by
  simp [Vec3.lengthSq, Vec3.dot_def]
  ring

theorem dotSelf_nonneg (a : Vec3) : 0 ≤ a.dot a := by
  simp only [Vec3.dot_def]
  nlinarith [mul_self_nonneg a.x, mul_self_nonneg a.y, mul_self_nonneg a.z]

theorem crossSq_nonneg (a b : Vec3) : 0 ≤ (a.cross b).lengthSq := by
  simp only [Vec3.lengthSq, Vec3.dot_def, Vec3.cross_x, Vec3.cross_y, Vec3.cross_z]
  nlinarith [mul_self_nonneg (a.y * b.z - a.z * b.y), mul_self_nonneg (a.z * b.x - a.x * b.z),
    mul_self_nonneg (a.x * b.y - a.y * b.x)]

/-- C6: for every non-degenerate triangle (non-zero cross product of its
edges, the only case in which barycentric coordinates are defined and the
float code performs no division by zero) and every query point,
`closestPointToPoint` returns a point whose barycentric coordinates with
respect to the three vertices all lie within `[0,1]` and sum to `1`, i.e. the
returned point lies on the triangle including its interior. -/
theorem closestPointToPoint_barycentric (t : Triangle) (p : Vec3)
    (hndg : (t.edge1.cross t.edge2).lengthSq ≠ 0) :
    ∃ a b c : ℚ, 0 ≤ a ∧ a ≤ 1 ∧ 0 ≤ b ∧ b ≤ 1 ∧ 0 ≤ c ∧ c ≤ 1 ∧
      a + b + c = 1 ∧
      t.closestPointToPoint p =
        ((t.v0.multiplyScalar a).add (t.v1.multiplyScalar b)).add
          (t.v2.multiplyScalar c) := by
  have hA0 : 0 ≤ t.edge1.dot t.edge1 := dotSelf_nonneg _
  have hC0 : 0 ≤ t.edge2.dot t.edge2 := dotSelf_nonneg _
  have hS0 : 0 ≤ (t.edge1.cross t.edge2).lengthSq := crossSq_nonneg _ _
  have hSge : 0 ≤ t.edge1.dot t.edge1 * t.edge2.dot t.edge2 -
      t.edge1.dot t.edge2 * t.edge1.dot t.edge2 := (crossSq_eq t.edge1 t.edge2) ▸ hS0
  have hSne : t.edge1.dot t.edge1 * t.edge2.dot t.edge2 -
      t.edge1.dot t.edge2 * t.edge1.dot t.edge2 ≠ 0 := by
    intro h
    exact hndg ((crossSq_eq t.edge1 t.edge2).trans h)
  have hS : 0 < t.edge1.dot t.edge1 * t.edge2.dot t.edge2 -
      t.edge1.dot t.edge2 * t.edge1.dot t.edge2 := lt_of_le_of_ne hSge (Ne.symm hSne)
  simp only [Triangle.closestPointToPoint]
  split_ifs with h1 h2 h3 h4 h5 h6
  · exact ⟨1, 0, 0, by norm_num, by norm_num, by norm_num, by norm_num, by norm_num,
      by norm_num, by norm_num, by rw [Vec3.ext_iff]; refine ⟨?_, ?_, ?_⟩ <;> simp⟩
  · exact ⟨0, 1, 0, by norm_num, by norm_num, by norm_num, by norm_num, by norm_num,
      by norm_num, by norm_num, by rw [Vec3.ext_iff]; refine ⟨?_, ?_, ?_⟩ <;> simp⟩
  · -- edge v0-v1 region
    set x := t.edge1.dot (p.sub t.v0) with hxd
    set A := t.edge1.dot t.edge1 with hAd
    set d3 := t.edge1.dot (p.sub t.v1) with h3d
    have hd3 : d3 = x - A := by
      rw [h3d, hxd, hAd]
      simp [Vec3.dot_def, Triangle.edge1, Triangle.edge2]
      ring
    have hA : 0 < A := by nlinarith [sq_nonneg (t.edge1.dot t.edge2)]
    have hden : x - d3 = A := by rw [hd3]; ring
    have hxnn : 0 ≤ x := h3.2.1
    have hxA : x ≤ A := by have := h3.2.2; rw [hd3] at this; linarith
    refine ⟨1 - x / (x - d3), x / (x - d3), 0, ?_, ?_, ?_, ?_, by norm_num, by norm_num,
      by ring, ?_⟩
    · rw [hden]
      have : x / A ≤ 1 := by rw [div_le_one hA]; exact hxA
      linarith
    · rw [hden]
      have : 0 ≤ x / A := div_nonneg hxnn (le_of_lt hA)
      linarith
    · rw [hden]; exact div_nonneg hxnn (le_of_lt hA)
    · rw [hden]
      have : x / A ≤ 1 := by rw [div_le_one hA]; exact hxA
      linarith
    · rw [Vec3.ext_iff]
      refine ⟨?_, ?_, ?_⟩ <;> simp [Triangle.edge1] <;> ring
  · exact ⟨0, 0, 1, by norm_num, by norm_num, by norm_num, by norm_num, by norm_num,
      by norm_num, by norm_num, by rw [Vec3.ext_iff]; refine ⟨?_, ?_, ?_⟩ <;> simp⟩
  · -- edge v0-v2 region
    set y := t.edge2.dot (p.sub t.v0) with hyd
    set C := t.edge2.dot t.edge2 with hCd
    set d6 := t.edge2.dot (p.sub t.v2) with h6d
    have hd6 : d6 = y - C := by
      rw [h6d, hyd, hCd]
      simp [Vec3.dot_def, Triangle.edge1, Triangle.edge2]
      ring
    have hC : 0 < C := by nlinarith [sq_nonneg (t.edge1.dot t.edge2)]
    have hden : y - d6 = C := by rw [hd6]; ring
    have hynn : 0 ≤ y := h5.2.1
    have hyC : y ≤ C := by have := h5.2.2; rw [hd6] at this; linarith
    refine ⟨1 - y / (y - d6), 0, y / (y - d6), ?_, ?_, by norm_num, by norm_num, ?_, ?_,
      by ring, ?_⟩
    · rw [hden]
      have : y / C ≤ 1 := by rw [div_le_one hC]; exact hyC
      linarith
    · rw [hden]
      have : 0 ≤ y / C := div_nonneg hynn (le_of_lt hC)
      linarith
    · rw [hden]; exact div_nonneg hynn (le_of_lt hC)
    · rw [hden]
      have : y / C ≤ 1 := by rw [div_le_one hC]; exact hyC
      linarith
    · rw [Vec3.ext_iff]
      refine ⟨?_, ?_, ?_⟩ <;> simp [Triangle.edge2] <;> ring
  · -- edge v1-v2 region
    set x := t.edge1.dot (p.sub t.v0) with hxd
    set y := t.edge2.dot (p.sub t.v0) with hyd
    set A := t.edge1.dot t.edge1 with hAd
    set B := t.edge1.dot t.edge2 with hBd
    set C := t.edge2.dot t.edge2 with hCd
    set d3 := t.edge1.dot (p.sub t.v1) with h3d
    set d4 := t.edge2.dot (p.sub t.v1) with h4d
    set d5 := t.edge1.dot (p.sub t.v2) with h5d
    set d6 := t.edge2.dot (p.sub t.v2) with h6d
    have hq : (d4 - d3) + (d5 - d6) = A - 2 * B + C := by
      rw [h3d, h4d, h5d, h6d, hAd, hBd, hCd]
      simp [Vec3.dot_def, Triangle.edge1, Triangle.edge2]
      ring
    have hA : 0 < A := by nlinarith [sq_nonneg B]
    have hD : 0 < A - 2 * B + C := by nlinarith [sq_nonneg (A - B)]
    have hnum : 0 ≤ d4 - d3 := h6.2.1
    have hnum2 : 0 ≤ d5 - d6 := h6.2.2
    have hdenpos : 0 < (d4 - d3) + (d5 - d6) := by rw [hq]; exact hD
    have hw1 : (d4 - d3) / ((d4 - d3) + (d5 - d6)) ≤ 1 := by
      rw [div_le_one hdenpos]; linarith
    have hw0 : 0 ≤ (d4 - d3) / ((d4 - d3) + (d5 - d6)) := div_nonneg hnum (le_of_lt hdenpos)
    refine ⟨0, 1 - (d4 - d3) / ((d4 - d3) + (d5 - d6)),
      (d4 - d3) / ((d4 - d3) + (d5 - d6)), by norm_num, by norm_num, by linarith,
      by linarith, hw0, hw1, by ring, ?_⟩
    · rw [Vec3.ext_iff]
      refine ⟨?_, ?_, ?_⟩ <;> simp <;> ring
  · -- interior region
    set x := t.edge1.dot (p.sub t.v0) with hxd
    set y := t.edge2.dot (p.sub t.v0) with hyd
    set A := t.edge1.dot t.edge1 with hAd
    set B := t.edge1.dot t.edge2 with hBd
    set C := t.edge2.dot t.edge2 with hCd
    set d3 := t.edge1.dot (p.sub t.v1) with h3d
    set d4 := t.edge2.dot (p.sub t.v1) with h4d
    set d5 := t.edge1.dot (p.sub t.v2) with h5d
    set d6 := t.edge2.dot (p.sub t.v2) with h6d
    have hd3 : d3 = x - A := by
      rw [h3d, hxd, hAd]; simp [Vec3.dot_def, Triangle.edge1, Triangle.edge2]; ring
    have hd4 : d4 = y - B := by
      rw [h4d, hyd, hBd]; simp [Vec3.dot_def, Triangle.edge1, Triangle.edge2]; ring
    have hd5 : d5 = x - B := by
      rw [h5d, hxd, hBd]; simp [Vec3.dot_def, Triangle.edge1, Triangle.edge2]; ring
    have hd6 : d6 = y - C := by
      rw [h6d, hyd, hCd]; simp [Vec3.dot_def, Triangle.edge1, Triangle.edge2]; ring
    rw [hd3, hd4] at h2
    rw [hd3, hd4] at h3
    rw [hd5, hd6] at h4
    rw [hd5, hd6] at h5
    rw [hd3, hd4, hd5, hd6] at h6
    rw [hd3, hd4, hd5, hd6]
    have hvc_e : x * (y - B) - (x - A) * y = A * y - B * x := by ring
    have hvb_e : (x - B) * y - x * (y - C) = C * x - B * y := by ring
    rw [hvc_e] at h3
    rw [hvb_e] at h5
    clear_value x y A B C d3 d4 d5 d6
    have hvc0 := ericson_vc A B C x y hA0 hC0 hS h1 h2 h3 h4 h5 h6
    have hvb0 := ericson_vb A B C x y hA0 hC0 hS h1 h2 h3 h4 h5 h6
    have hva0 := ericson_va A B C x y hA0 hC0 hS hvc0 hvb0 h1 h2 h4 h6
    have hsum_e : (x - A) * (y - C) - (x - B) * (y - B) +
        ((x - B) * y - x * (y - C)) + (x * (y - B) - (x - A) * y) =
        A * C - B * B := by ring
    rw [hsum_e, hvc_e, hvb_e]
    have hSinv : 0 ≤ 1 / (A * C - B * B) := le_of_lt (by positivity)
    have hb0 : 0 ≤ (C * x - B * y) * (1 / (A * C - B * B)) := mul_nonneg hvb0 hSinv
    have hc0 : 0 ≤ (A * y - B * x) * (1 / (A * C - B * B)) := mul_nonneg hvc0 hSinv
    have hbc1 : (C * x - B * y) * (1 / (A * C - B * B)) +
        (A * y - B * x) * (1 / (A * C - B * B)) ≤ 1 := by
      rw [mul_one_div, mul_one_div, div_add_div_same, div_le_one hS]
      nlinarith [hva0]
    refine ⟨1 - (C * x - B * y) * (1 / (A * C - B * B)) -
        (A * y - B * x) * (1 / (A * C - B * B)),
      (C * x - B * y) * (1 / (A * C - B * B)),
      (A * y - B * x) * (1 / (A * C - B * B)),
      by linarith, by linarith, hb0, by linarith, hc0, by linarith, by ring, ?_⟩
    · rw [Vec3.ext_iff]
      refine ⟨?_, ?_, ?_⟩ <;> simp [Triangle.edge1, Triangle.edge2] <;> ring

/-- Witness for C6 at a concrete non-degenerate triangle and query point. -/
theorem closestPointToPoint_barycentric_witness :
    ((Triangle.mk ⟨0, 0, 0⟩ ⟨2, 0, 0⟩ ⟨0, 2, 0⟩).edge1.cross
      (Triangle.mk ⟨0, 0, 0⟩ ⟨2, 0, 0⟩ ⟨0, 2, 0⟩).edge2).lengthSq ≠ 0 ∧
    ∃ a b c : ℚ, 0 ≤ a ∧ a ≤ 1 ∧ 0 ≤ b ∧ b ≤ 1 ∧ 0 ≤ c ∧ c ≤ 1 ∧
      a + b + c = 1 ∧
      (Triangle.mk ⟨0, 0, 0⟩ ⟨2, 0, 0⟩ ⟨0, 2, 0⟩).closestPointToPoint ⟨5, 5, 3⟩ =
        (((Triangle.mk ⟨0, 0, 0⟩ ⟨2, 0, 0⟩ ⟨0, 2, 0⟩).v0.multiplyScalar a).add
          ((Triangle.mk ⟨0, 0, 0⟩ ⟨2, 0, 0⟩ ⟨0, 2, 0⟩).v1.multiplyScalar b)).add
          ((Triangle.mk ⟨0, 0, 0⟩ ⟨2, 0, 0⟩ ⟨0, 2, 0⟩).v2.multiplyScalar c) :=
  ⟨by norm_num [Triangle.edge1, Triangle.edge2, Vec3.cross, Vec3.lengthSq, Vec3.dot_def,
      Vec3.sub],
   closestPointToPoint_barycentric _ _ (by norm_num [Triangle.edge1, Triangle.edge2,
      Vec3.cross, Vec3.lengthSq, Vec3.dot_def, Vec3.sub])⟩

/-
  BVH (shared by the two game-physics files).  `BVHNode` is either the
  null-aabb node produced by building an empty triangle list, a leaf, or an
  inner node.  The source recursion stops at `depth > 20`, so `buildAux`
  carries `fuel = 21 - depth` structurally (the top-level call has depth 0);
  `fuel = 0` is exactly the `depth > 20` cutoff.  The JS `sort` comparator
  on centroids is stable and all reasoning below only uses that the sort is
  a permutation, so it is modelled with `List.insertionSort`.
-/

inductive BVHNode where
  | nullNode : BVHNode
  | leaf (aabb : AABB) (triangles : List Triangle) : BVHNode
  | inner (aabb : AABB) (left right : BVHNode) : BVHNode
deriving DecidableEq, Repr

/-- Centroid coordinate along the split axis (0 = x, 1 = y, 2 = z). -/
def centroidAxis (axis : ℕ) (t : Triangle) : ℚ :=
  if axis = 0 then t.centroid.x else if axis = 1 then t.centroid.y else t.centroid.z

/-- The union AABB of a non-empty triangle list, exactly as in `build`:
start from the first triangle's box and fold `AABB.union` over the rest. -/
def unionAABB (t : Triangle) (rest : List Triangle) : AABB :=
  rest.foldl (fun acc tr => AABB.union acc tr.computeAABB) t.computeAABB

/-- The longest-axis choice of `build` (0 = x, 1 = y, 2 = z). -/
def longestAxis (aabb : AABB) : ℕ :=
  let extent := aabb.max.sub aabb.min
  if extent.y > extent.x ∧ extent.y > extent.z then 1
  else if extent.z > extent.x ∧ extent.z > extent.y then 2
  else 0

/-- The centroid sort of `build` along the longest axis of the node box. -/
def sortByCentroid (aabb : AABB) (l : List Triangle) : List Triangle :=
  List.insertionSort
    (fun a b => centroidAxis (longestAxis aabb) a ≤ centroidAxis (longestAxis aabb) b) l

theorem mem_sortByCentroid {aabb : AABB} {l : List Triangle} {tri : Triangle} :
    tri ∈ sortByCentroid aabb l ↔ tri ∈ l := by
  unfold sortByCentroid
  exact List.mem_insertionSort _

def buildAux : ℕ → List Triangle → BVHNode
  | _, [] => .nullNode
  | 0, t :: rest => .leaf (unionAABB t rest) (t :: rest)
  | fuel + 1, t :: rest =>
    let aabb := unionAABB t rest
    if (t :: rest).length ≤ 4 then .leaf aabb (t :: rest)
    else
      let sorted := sortByCentroid aabb (t :: rest)
      let mid := (t :: rest).length / 2
      .inner aabb (buildAux fuel (sorted.take mid)) (buildAux fuel (sorted.drop mid))

/-- BVH construction: `new BVH(triangles)` builds the root at depth 0. -/
def buildBVH (tris : List Triangle) : BVHNode := buildAux 21 tris

/-- The aabb stored on a node; the null node has none (children of built
inner nodes are never null, so the `nullNode` default is never consulted
on inputs the JS code accepts). -/
def nodeAABB : BVHNode → AABB
  | .nullNode => ⟨Vec3.zero, Vec3.zero⟩
  | .leaf a _ => a
  | .inner a _ _ => a

/-- Recursive `querySphere` of the mesh-collision variant (part_007):
prune on the aabb, collect whole leaves into the accumulated `results`
array, recurse left then right. -/
def querySphere7 : BVHNode → Vec3 → ℚ → List Triangle → List Triangle
  | .nullNode, _, _, results => results
  | .leaf aabb tris, center, radius, results =>
    if aabb.intersectsSphere center radius then results ++ tris else results
  | .inner aabb l r, center, radius, results =>
    if aabb.intersectsSphere center radius then
      querySphere7 r center radius (querySphere7 l center radius results)
    else results

def nodeCount : BVHNode → ℕ
  | .nullNode => 1
  | .leaf _ _ => 1
  | .inner _ l r => 1 + nodeCount l + nodeCount r

/-- One `while` loop of the stack-based `querySphere` (part_006).  Each
iteration sorts the stack ascending by the recorded distance and pops the
last entry (the JS `sort` + `pop` pair).  `fuel` bounds the number of
iterations; the caller passes more fuel than nodes, and every node enters
the stack at most once, so the `fuel = 0` fallback is unreachable. -/
def qs6Go (center : Vec3) (radius : ℚ) (maxResults : ℕ) :
    ℕ → List (BVHNode × ℚ) → List Triangle → List Triangle
  | 0, _, results => results
  | fuel + 1, stack, results =>
    match (List.insertionSort (fun a b => a.2 ≤ b.2) stack).reverse with
    | [] => results
    | (node, distSq) :: restRev =>
      let rest := restRev.reverse
      match node with
      | .nullNode => qs6Go center radius maxResults fuel rest results
      | .leaf aabb tris =>
        if results.length ≥ maxResults ∧ distSq > radius * radius then results
        else if aabb.intersectsSphere center radius then
          let results2 := results ++ tris
          let results3 :=
            if results2.length ≥ maxResults * 2 then
              (List.insertionSort
                (fun a b => a.centroid.distanceToSquared center ≤
                            b.centroid.distanceToSquared center) results2).take maxResults
            else results2
          qs6Go center radius maxResults fuel rest results3
        else qs6Go center radius maxResults fuel rest results
      | .inner aabb l r =>
        if results.length ≥ maxResults ∧ distSq > radius * radius then results
        else if aabb.intersectsSphere center radius then
          qs6Go center radius maxResults fuel
            (rest ++ [(l, (nodeAABB l).center.distanceToSquared center),
                      (r, (nodeAABB r).center.distanceToSquared center)]) results
        else qs6Go center radius maxResults fuel rest results

/-- Stack-based `querySphere` of part_006 (with its `maxResults = 50`
default supplied by callers). -/
def querySphere6 (root : BVHNode) (center : Vec3) (radius : ℚ)
    (maxResults : ℕ) : List Triangle :=
  qs6Go center radius maxResults (nodeCount root * 4 + 4) [(root, 0)] []

/-- The brute-force filter of the spec: the triangle carries a point (a
convex combination of its vertices) within distance `r` of the center. -/
def TriWithin (tri : Triangle) (c : Vec3) (r : ℚ) : Prop :=
  ∃ a b cc : ℚ, 0 ≤ a ∧ 0 ≤ b ∧ 0 ≤ cc ∧ a + b + cc = 1 ∧
    c.distanceToSquared
      (((tri.v0.multiplyScalar a).add (tri.v1.multiplyScalar b)).add
        (tri.v2.multiplyScalar cc)) ≤ r * r

theorem convex3_lower (a b c p q r : ℚ) (ha : 0 ≤ a) (hb : 0 ≤ b) (hc : 0 ≤ c)
    (hsum : a + b + c = 1) : min (min p q) r ≤ a * p + b * q + c * r := by
  set m := min (min p q) r with hm
  have hp : m ≤ p := le_trans (min_le_left _ _) (min_le_left _ _)
  have hq : m ≤ q := le_trans (min_le_left _ _) (min_le_right _ _)
  have hr : m ≤ r := min_le_right _ _
  have h1 : a * m ≤ a * p := mul_le_mul_of_nonneg_left hp ha
  have h2 : b * m ≤ b * q := mul_le_mul_of_nonneg_left hq hb
  have h3 : c * m ≤ c * r := mul_le_mul_of_nonneg_left hr hc
  have hsm : a * m + b * m + c * m = m := by
    rw [show a * m + b * m + c * m = (a + b + c) * m from by ring, hsum, one_mul]
  linarith

theorem convex3_upper (a b c p q r : ℚ) (ha : 0 ≤ a) (hb : 0 ≤ b) (hc : 0 ≤ c)
    (hsum : a + b + c = 1) : a * p + b * q + c * r ≤ max (max p q) r := by
  set m := max (max p q) r with hm
  have hp : p ≤ m := le_trans (le_max_left _ _) (le_max_left _ _)
  have hq : q ≤ m := le_trans (le_max_right _ _) (le_max_left _ _)
  have hr : r ≤ m := le_max_right _ _
  have h1 : a * p ≤ a * m := mul_le_mul_of_nonneg_left hp ha
  have h2 : b * q ≤ b * m := mul_le_mul_of_nonneg_left hq hb
  have h3 : c * r ≤ c * m := mul_le_mul_of_nonneg_left hr hc
  have hsm : a * m + b * m + c * m = m := by
    rw [show a * m + b * m + c * m = (a + b + c) * m from by ring, hsum, one_mul]
  linarith

/-- Any convex combination of the vertices lies in the triangle's AABB. -/
theorem combo_mem_computeAABB (t : Triangle) (a b c : ℚ)
    (ha : 0 ≤ a) (hb : 0 ≤ b) (hc : 0 ≤ c) (hsum : a + b + c = 1) :
    t.computeAABB.containsPt
      (((t.v0.multiplyScalar a).add (t.v1.multiplyScalar b)).add
        (t.v2.multiplyScalar c)) := by
  refine ⟨?_, ?_, ?_, ?_, ?_, ?_⟩ <;>
    simp only [Triangle.computeAABB, AABB.containsPt, Vec3.add_x, Vec3.add_y, Vec3.add_z,
      Vec3.mulS_x, Vec3.mulS_y, Vec3.mulS_z]
  · have := convex3_lower a b c t.v0.x t.v1.x t.v2.x ha hb hc hsum
    linarith [this]
  · have := convex3_upper a b c t.v0.x t.v1.x t.v2.x ha hb hc hsum
    linarith [this]
  · have := convex3_lower a b c t.v0.y t.v1.y t.v2.y ha hb hc hsum
    linarith [this]
  · have := convex3_upper a b c t.v0.y t.v1.y t.v2.y ha hb hc hsum
    linarith [this]
  · have := convex3_lower a b c t.v0.z t.v1.z t.v2.z ha hb hc hsum
    linarith [this]
  · have := convex3_upper a b c t.v0.z t.v1.z t.v2.z ha hb hc hsum
    linarith [this]

/-- The clamped coordinate is at least as close to `v` as any point of the
interval. -/
theorem clampQ_closest (v lo hi t : ℚ) (h1 : lo ≤ t) (h2 : t ≤ hi) :
    (v - clampQ v lo hi) * (v - clampQ v lo hi) ≤ (v - t) * (v - t) := by
  unfold clampQ
  rcases le_total v lo with hvlo | hvlo
  · rw [min_eq_left (by linarith), max_eq_left (by linarith)]
    nlinarith
  · rcases le_total v hi with hvhi | hvhi
    · rw [min_eq_left hvhi, max_eq_right hvlo]
      nlinarith [mul_self_nonneg (v - t)]
    · rw [min_eq_right hvhi, max_eq_right (by linarith)]
      nlinarith

/-- A box containing a point within `r` of the query center passes
`intersectsSphere`. -/
theorem intersectsSphere_of_mem (b : AABB) (c p : Vec3) (r : ℚ)
    (hp : b.containsPt p) (hd : c.distanceToSquared p ≤ r * r) :
    b.intersectsSphere c r := by
  obtain ⟨h1, h2, h3, h4, h5, h6⟩ := hp
  have hx := clampQ_closest c.x b.min.x b.max.x p.x h1 h2
  have hy := clampQ_closest c.y b.min.y b.max.y p.y h3 h4
  have hz := clampQ_closest c.z b.min.z b.max.z p.z h5 h6
  simp only [AABB.intersectsSphere, AABB.closestTo, Vec3.distanceToSquared, Vec3.lengthSq,
    Vec3.dot_def, Vec3.sub_x, Vec3.sub_y, Vec3.sub_z] at *
  nlinarith [hx, hy, hz]

theorem union_contains_left (a b : AABB) (p : Vec3) (h : a.containsPt p) :
    (AABB.union a b).containsPt p := by
  obtain ⟨h1, h2, h3, h4, h5, h6⟩ := h
  exact ⟨le_trans (min_le_left _ _) h1, le_trans h2 (le_max_left _ _),
    le_trans (min_le_left _ _) h3, le_trans h4 (le_max_left _ _),
    le_trans (min_le_left _ _) h5, le_trans h6 (le_max_left _ _)⟩

theorem union_contains_right (a b : AABB) (p : Vec3) (h : b.containsPt p) :
    (AABB.union a b).containsPt p := by
  obtain ⟨h1, h2, h3, h4, h5, h6⟩ := h
  exact ⟨le_trans (min_le_right _ _) h1, le_trans h2 (le_max_right _ _),
    le_trans (min_le_right _ _) h3, le_trans h4 (le_max_right _ _),
    le_trans (min_le_right _ _) h5, le_trans h6 (le_max_right _ _)⟩

theorem foldl_union_contains_init (tl : List Triangle) (init : AABB) (p : Vec3)
    (h : init.containsPt p) :
    (tl.foldl (fun acc tr => AABB.union acc tr.computeAABB) init).containsPt p := by
  induction tl generalizing init with
  | nil => exact h
  | cons hd tl2 ih => exact ih _ (union_contains_left _ _ _ h)

theorem foldl_union_contains_mem (tl : List Triangle) (init : AABB) (p : Vec3)
    (tri : Triangle) (hmem : tri ∈ tl) (h : tri.computeAABB.containsPt p) :
    (tl.foldl (fun acc tr => AABB.union acc tr.computeAABB) init).containsPt p := by
  induction tl generalizing init with
  | nil => cases hmem
  | cons hd tl2 ih =>
    rw [List.foldl_cons]
    rcases List.mem_cons.mp hmem with rfl | hm
    · exact foldl_union_contains_init _ _ _ (union_contains_right _ _ _ h)
    · exact ih _ hm

/-- A triangle of the list is covered by the `build` union box. -/
theorem unionAABB_contains (t : Triangle) (rest : List Triangle) (tri : Triangle)
    (p : Vec3) (hmem : tri = t ∨ tri ∈ rest) (hp : tri.computeAABB.containsPt p) :
    (unionAABB t rest).containsPt p := by
  unfold unionAABB
  rcases hmem with rfl | h
  · exact foldl_union_contains_init _ _ _ hp
  · exact foldl_union_contains_mem _ _ _ _ h hp

/-- The accumulator only grows during `querySphere7`. -/
theorem qs7_mono (node : BVHNode) (c : Vec3) (r : ℚ) (res : List Triangle)
    (tri : Triangle) (h : tri ∈ res) : tri ∈ querySphere7 node c r res := by
  induction node generalizing res with
  | nullNode => exact h
  | leaf aabb tris =>
    unfold querySphere7
    split_ifs with hi
    · exact List.mem_append_left _ h
    · exact h
  | inner aabb l r2 ihl ihr =>
    unfold querySphere7
    split_ifs with hi
    · exact ihr _ (ihl _ h)
    · exact h

theorem unionAABB_intersects (t : Triangle) (rest : List Triangle) (tri : Triangle)
    (c : Vec3) (r : ℚ) (hmem : tri ∈ t :: rest) (hin : TriWithin tri c r) :
    (unionAABB t rest).intersectsSphere c r := by
  obtain ⟨a, b, cc, ha, hb, hc, hsum, hd⟩ := hin
  exact intersectsSphere_of_mem _ _ _ _
    (unionAABB_contains t rest tri _ (List.mem_cons.mp hmem)
      (combo_mem_computeAABB tri a b cc ha hb hc hsum)) hd

theorem mem_qs7_buildAux (fuel : ℕ) (tris : List Triangle) (tri : Triangle)
    (c : Vec3) (r : ℚ) (res : List Triangle)
    (hmem : tri ∈ tris) (hin : TriWithin tri c r) :
    tri ∈ querySphere7 (buildAux fuel tris) c r res := by
  induction fuel generalizing tris res with
  | zero =>
    match tris, hmem with
    | t :: rest, hmem =>
      show tri ∈ querySphere7 (.leaf (unionAABB t rest) (t :: rest)) c r res
      unfold querySphere7
      rw [if_pos (unionAABB_intersects t rest tri c r hmem hin)]
      exact List.mem_append_right _ hmem
  | succ fuel ih =>
    match tris, hmem with
    | t :: rest, hmem =>
      simp only [buildAux]
      split_ifs with hlen
      · unfold querySphere7
        rw [if_pos (unionAABB_intersects t rest tri c r hmem hin)]
        exact List.mem_append_right _ hmem
      · unfold querySphere7
        rw [if_pos (unionAABB_intersects t rest tri c r hmem hin)]
        have hmemsorted : tri ∈ sortByCentroid (unionAABB t rest) (t :: rest) :=
          mem_sortByCentroid.mpr hmem
        rw [← List.take_append_drop ((t :: rest).length / 2)
          (sortByCentroid (unionAABB t rest) (t :: rest))] at hmemsorted
        rcases List.mem_append.mp hmemsorted with hleft | hright
        · exact qs7_mono _ c r _ tri (ih _ res hleft)
        · exact ih _ _ hright

/-- C2 (amended): for every triangle set used to build a BVH and every query
sphere, the recursive `querySphere` (the mesh-collision variant) returns a
superset of the brute-force-filtered candidate set: every stored triangle
carrying a point within distance `radius` of the center appears in the
returned list (no false negatives).  The stack-based `querySphere` of the
main game-physics file guarantees this only while its result list stays
below `2·maxResults` candidates; beyond that it truncates by centroid
distance and can drop in-range triangles (see the counterexample). -/
theorem querySphere_recursive_no_false_negatives (tris : List Triangle)
    (c : Vec3) (r : ℚ) (tri : Triangle) (res : List Triangle)
    (hmem : tri ∈ tris) (hin : TriWithin tri c r) :
    tri ∈ querySphere7 (buildBVH tris) c r res :=
  mem_qs7_buildAux 21 tris tri c r res hmem hin

/-- Witness for the amended C2 at a concrete one-triangle soup. -/
theorem querySphere_recursive_no_false_negatives_witness :
    ((⟨⟨0,0,0⟩,⟨1,0,0⟩,⟨0,1,0⟩⟩ : Triangle) ∈
        [(⟨⟨0,0,0⟩,⟨1,0,0⟩,⟨0,1,0⟩⟩ : Triangle)] ∧
      TriWithin ⟨⟨0,0,0⟩,⟨1,0,0⟩,⟨0,1,0⟩⟩ ⟨0,0,0⟩ 10) ∧
    (⟨⟨0,0,0⟩,⟨1,0,0⟩,⟨0,1,0⟩⟩ : Triangle) ∈
      querySphere7 (buildBVH [⟨⟨0,0,0⟩,⟨1,0,0⟩,⟨0,1,0⟩⟩]) ⟨0,0,0⟩ 10 [] :=
  ⟨⟨by simp, ⟨1, 0, 0, by norm_num, by norm_num, by norm_num, by norm_num,
      by norm_num [Vec3.distanceToSquared, Vec3.lengthSq, Vec3.dot_def, Vec3.sub,
        Vec3.add, Vec3.multiplyScalar]⟩⟩,
   querySphere_recursive_no_false_negatives _ _ _ _ _ (by simp)
     ⟨1, 0, 0, by norm_num, by norm_num, by norm_num, by norm_num,
      by norm_num [Vec3.distanceToSquared, Vec3.lengthSq, Vec3.dot_def, Vec3.sub,
        Vec3.add, Vec3.multiplyScalar]⟩⟩

/-- C2 counterexample: the stack-based `querySphere` truncates its result
list by centroid distance once it reaches `2·maxResults` entries, so it is
not a superset of the brute-force filter.  Querying a four-triangle leaf
with `maxResults = 1` and radius 100 (covering all four triangles) returns
only the centroid-closest triangle; the in-range triangle at x = 12 is
missing from the returned list. -/
theorem querySphere_truncation_counterexample :
    TriWithin ⟨⟨12,0,0⟩,⟨14,0,0⟩,⟨12,2,0⟩⟩ ⟨0,0,0⟩ 100 ∧
    (⟨⟨12,0,0⟩,⟨14,0,0⟩,⟨12,2,0⟩⟩ : Triangle) ∉
      querySphere6 (buildBVH
        [⟨⟨0,0,0⟩,⟨2,0,0⟩,⟨0,2,0⟩⟩, ⟨⟨4,0,0⟩,⟨6,0,0⟩,⟨4,2,0⟩⟩,
         ⟨⟨8,0,0⟩,⟨10,0,0⟩,⟨8,2,0⟩⟩, ⟨⟨12,0,0⟩,⟨14,0,0⟩,⟨12,2,0⟩⟩])
        ⟨0,0,0⟩ 100 1 := by
  constructor
  · exact ⟨1, 0, 0, by norm_num, by norm_num, by norm_num, by norm_num,
      by norm_num [Vec3.distanceToSquared, Vec3.lengthSq, Vec3.dot_def, Vec3.sub,
        Vec3.add, Vec3.multiplyScalar]⟩
  · have hq : querySphere6 (buildBVH
        [⟨⟨0,0,0⟩,⟨2,0,0⟩,⟨0,2,0⟩⟩, ⟨⟨4,0,0⟩,⟨6,0,0⟩,⟨4,2,0⟩⟩,
         ⟨⟨8,0,0⟩,⟨10,0,0⟩,⟨8,2,0⟩⟩, ⟨⟨12,0,0⟩,⟨14,0,0⟩,⟨12,2,0⟩⟩])
        ⟨0,0,0⟩ 100 1 = [⟨⟨0,0,0⟩,⟨2,0,0⟩,⟨0,2,0⟩⟩] := by
      norm_num [querySphere6, buildBVH, buildAux, qs6Go, nodeCount, unionAABB,
        Triangle.computeAABB, AABB.union, AABB.intersectsSphere, AABB.closestTo, clampQ,
        Vec3.distanceToSquared, Vec3.lengthSq, Vec3.dot_def, Vec3.sub, Triangle.centroid,
        Vec3.add, Vec3.multiplyScalar, List.insertionSort, List.orderedInsert, nodeAABB,
        AABB.center, sortByCentroid, centroidAxis, longestAxis]
    rw [hq]
    simp only [List.mem_singleton]
    intro hcontra
    have := congrArg (fun t => t.v0.x) hcontra
    norm_num at this

/-
  Rigid body (class PhysicsObject).  `momentOfInertia` is `none` when the
  JS value is `Infinity` (static bodies).  Where the code divides by the
  moment of inertia, `inertiaVal none = 0` together with the rational
  convention `q / 0 = 0` agrees with the float behaviour `q / Infinity = 0`
  (the only disagreement would be an explicit `momentOfInertia = 0`, a state
  no constructor produces).  `rotUp` models
  `new Vector3(0,1,0).applyEuler(this.mesh.rotation)`: the identity rotation
  of a fresh mesh gives (0,1,0); it is only consulted in the degenerate
  coincident-centers branch of `resolveCollision`.
-/

structure PhysicsObject where
  mass : ℚ
  position : Vec3
  velocity : Vec3
  acceleration : Vec3
  isStatic : Bool
  radius : ℚ
  angularVelocity : Vec3
  angularAcceleration : Vec3
  momentOfInertia : Option ℚ
  restitution : ℚ
  friction : ℚ
  rotUp : Vec3
deriving DecidableEq, Repr

def inertiaVal : Option ℚ → ℚ
  | none => 0
  | some i => i

/-- Inverse inertia as guarded in `resolveCollision`:
`(I === Infinity || I === 0) ? 0 : 1 / I`. -/
def invInertia : Option ℚ → ℚ
  | none => 0
  | some i => if i = 0 then 0 else 1 / i

namespace PhysicsObject

/-- The physics.js constructor (restitution 0.7, friction 0.3, radius 1,
solid-sphere inertia for dynamic bodies, `Infinity` i.e. `none` for mass 0). -/
def make (mass : ℚ) (position velocity : Vec3) : PhysicsObject :=
  { mass := mass
    position := position
    velocity := velocity
    acceleration := Vec3.zero
    isStatic := decide (mass = 0)
    radius := 1
    angularVelocity := Vec3.zero
    angularAcceleration := Vec3.zero
    momentOfInertia := if 0 < mass then some (2 / 5 * mass * 1 * 1) else none
    restitution := 7 / 10
    friction := 3 / 10
    rotUp := ⟨0, 1, 0⟩ }

/-- Semi-implicit Euler `update(dt)`.  The mesh rotation by `|ω|·dt`
radians only changes the visual mesh orientation (hence `rotUp`); it
involves trigonometry, is consulted by no claim, and is carried unchanged. -/
def update (dt : ℚ) (b : PhysicsObject) : PhysicsObject :=
  if b.isStatic then b else
  let velocity := b.velocity.addScaledVector b.acceleration dt
  let position := b.position.addScaledVector velocity dt
  let angularVelocity := b.angularVelocity.addScaledVector b.angularAcceleration dt
  { b with
    velocity := velocity
    position := position
    angularVelocity := angularVelocity
    acceleration := Vec3.zero
    angularAcceleration := Vec3.zero }

def applyForce (force : Vec3) (b : PhysicsObject) : PhysicsObject :=
  if b.isStatic then b else
  { b with acceleration := b.acceleration.addScaledVector force (1 / b.mass) }

def applyTorque (torque : Vec3) (b : PhysicsObject) : PhysicsObject :=
  if b.isStatic then b else
  match b.momentOfInertia with
  | none => b
  | some i =>
    if i = 0 then b
    else { b with angularAcceleration := b.angularAcceleration.addScaledVector torque (1 / i) }

/-- physics.js `bounceOffPlane` (plane position/normal, plane restitution
and dt passed explicitly; the JS defaults are 0.7 and 0.016). -/
def bounceOffPlane (rt : ℚ → ℚ) (b : PhysicsObject) (planePosition planeNormal : Vec3)
    (planeRestitution dt : ℚ) : PhysicsObject :=
  if b.isStatic then b else
  let toSphere := b.position.sub planePosition
  let distanceToPlane := toSphere.dot planeNormal
  if distanceToPlane ≥ b.radius then b else
  let penetration := b.radius - distanceToPlane
  let position := b.position.addScaledVector planeNormal penetration
  let vn := b.velocity.dot planeNormal
  if vn ≥ 0 then { b with position := position } else
  let vNormal := planeNormal.multiplyScalar vn
  let vTangent := b.velocity.sub vNormal
  let e := min b.restitution planeRestitution
  let m := b.mass
  let vRoll := (b.angularVelocity.cross planeNormal).multiplyScalar b.radius
  let vSlip := vTangent.sub vRoll
  let slipSpeed := vSlip.length rt
  let mu := b.friction
  let newVn := -e * vn
  let velocity1 := (planeNormal.multiplyScalar newVn).add vTangent
  if slipSpeed > 1 / 10000 ∧ mu > 1 / 1000000 then
    let slipDir := vSlip.normalize rt
    let j_noslip := m * slipSpeed / (1 + m * b.radius * b.radius / inertiaVal b.momentOfInertia)
    let j_normal := m * |vn| * (1 + e)
    let j_max := mu * j_normal
    let j := min j_noslip j_max
    let velocity2 := velocity1.addScaledVector slipDir (-j / m)
    let r := planeNormal.multiplyScalar (-b.radius)
    let J := slipDir.multiplyScalar (-j)
    let deltaOmega := (r.cross J).divideScalar (inertiaVal b.momentOfInertia)
    { b with
      position := position
      velocity := velocity2
      angularVelocity := b.angularVelocity.add deltaOmega }
  else
    { b with position := position, velocity := velocity1 }

end PhysicsObject

/-- C7 counterexample: a body constructed with mass 0 keeps the velocity
argument passed to the constructor — the constructor does not zero it, so
`isStatic` is true while the velocity is the non-zero (1,0,0). -/
theorem static_constructor_velocity_counterexample :
    (PhysicsObject.make 0 ⟨0, 0, 0⟩ ⟨1, 0, 0⟩).isStatic = true ∧
    (PhysicsObject.make 0 ⟨0, 0, 0⟩ ⟨1, 0, 0⟩).velocity ≠ Vec3.zero := by
  constructor
  · simp [PhysicsObject.make]
  · simp only [PhysicsObject.make, Vec3.zero, ne_eq, Vec3.mk.injEq]
    norm_num

/-- C7 (amended): every body constructed with mass 0 has `isStatic = true`,
and `update` (integration), `applyForce` and `applyTorque` leave the body —
position, velocity and angular velocity included — entirely unchanged.  Its
velocity equals the velocity passed to the constructor (zero exactly when
the zero default is passed); the constructor does not force it to zero. -/
theorem static_body_inert (pos vel f tq : Vec3) (dt : ℚ) :
    (PhysicsObject.make 0 pos vel).isStatic = true ∧
    PhysicsObject.update dt (PhysicsObject.make 0 pos vel) = PhysicsObject.make 0 pos vel ∧
    PhysicsObject.applyForce f (PhysicsObject.make 0 pos vel) = PhysicsObject.make 0 pos vel ∧
    PhysicsObject.applyTorque tq (PhysicsObject.make 0 pos vel) = PhysicsObject.make 0 pos vel ∧
    (PhysicsObject.make 0 pos vel).velocity = vel := by
  have hs : (PhysicsObject.make 0 pos vel).isStatic = true := by simp [PhysicsObject.make]
  refine ⟨hs, ?_, ?_, ?_, rfl⟩ <;>
    simp [PhysicsObject.update, PhysicsObject.applyForce, PhysicsObject.applyTorque, hs]

/-- C1: a dynamic unit sphere with restitution 1/2 and friction 0 at
(0, 1/2, 0) with velocity (0, −5, 0), resolved once against the static
floor plane y = 0 with upward normal: the position is corrected by the full
penetration 1/2 so the lowest point of the sphere touches y = 0 exactly,
and the velocity's y component flips sign scaled by the restitution factor:
v.y = 5/2 exactly (so |v.y| ≈ 2.5 within any tolerance).  This holds for
every square-root oracle because the slip velocity at the contact is zero
and friction is zero. -/
theorem bounceOffPlane_floor_scenario (rt : ℚ → ℚ) (dt : ℚ) :
    (PhysicsObject.bounceOffPlane rt
        { PhysicsObject.make 1 ⟨0, 1/2, 0⟩ ⟨0, -5, 0⟩ with restitution := 1/2, friction := 0 }
        ⟨0, 0, 0⟩ ⟨0, 1, 0⟩ (7/10) dt).position = ⟨0, 1, 0⟩ ∧
    (PhysicsObject.bounceOffPlane rt
        { PhysicsObject.make 1 ⟨0, 1/2, 0⟩ ⟨0, -5, 0⟩ with restitution := 1/2, friction := 0 }
        ⟨0, 0, 0⟩ ⟨0, 1, 0⟩ (7/10) dt).position.y -
      (PhysicsObject.bounceOffPlane rt
        { PhysicsObject.make 1 ⟨0, 1/2, 0⟩ ⟨0, -5, 0⟩ with restitution := 1/2, friction := 0 }
        ⟨0, 0, 0⟩ ⟨0, 1, 0⟩ (7/10) dt).radius = 0 ∧
    (PhysicsObject.bounceOffPlane rt
        { PhysicsObject.make 1 ⟨0, 1/2, 0⟩ ⟨0, -5, 0⟩ with restitution := 1/2, friction := 0 }
        ⟨0, 0, 0⟩ ⟨0, 1, 0⟩ (7/10) dt).velocity = ⟨0, 5/2, 0⟩ := by
  norm_num [PhysicsObject.bounceOffPlane, PhysicsObject.make, Vec3.sub, Vec3.dot_def,
    Vec3.addScaledVector, Vec3.multiplyScalar, Vec3.add, Vec3.cross, Vec3.zero,
    Vec3.ext_iff]

/-- C10: for every non-static body, when the signed distance from the
body's center to the plane along the plane normal is at least the body's
radius, `bounceOffPlane` returns immediately and every field of the body
(position, velocity, angular velocity, all the rest) is unchanged. -/
theorem bounceOffPlane_no_contact_noop (rt : ℚ → ℚ) (b : PhysicsObject)
    (pPos pN : Vec3) (e dt : ℚ) (hstat : b.isStatic = false)
    (hdist : (b.position.sub pPos).dot pN ≥ b.radius) :
    PhysicsObject.bounceOffPlane rt b pPos pN e dt = b := by
  unfold PhysicsObject.bounceOffPlane
  simp [hstat, hdist]

/-- Witness for C10: a unit sphere five units above the floor plane. -/
theorem bounceOffPlane_no_contact_noop_witness :
    ((PhysicsObject.make 1 ⟨0, 5, 0⟩ ⟨0, -1, 0⟩).isStatic = false ∧
      ((PhysicsObject.make 1 ⟨0, 5, 0⟩ ⟨0, -1, 0⟩).position.sub ⟨0, 0, 0⟩).dot ⟨0, 1, 0⟩ ≥
        (PhysicsObject.make 1 ⟨0, 5, 0⟩ ⟨0, -1, 0⟩).radius) ∧
    PhysicsObject.bounceOffPlane (fun q => q) (PhysicsObject.make 1 ⟨0, 5, 0⟩ ⟨0, -1, 0⟩)
      ⟨0, 0, 0⟩ ⟨0, 1, 0⟩ (7/10) (2/125) = PhysicsObject.make 1 ⟨0, 5, 0⟩ ⟨0, -1, 0⟩ :=
  ⟨⟨by simp [PhysicsObject.make],
    by norm_num [PhysicsObject.make, Vec3.sub, Vec3.dot_def]⟩,
   bounceOffPlane_no_contact_noop (fun q => q) _ _ _ _ _ (by simp [PhysicsObject.make])
     (by norm_num [PhysicsObject.make, Vec3.sub, Vec3.dot_def])⟩

/-
  Sphere-sphere contact resolution (physics.js `resolveCollision`).  Both
  the normal and the Coulomb friction impulse are applied through the same
  guarded pattern (`velocity ± J·invMass`, `angularVelocity ± invI·(r × J)`),
  factored here as `applyContactImpulse`.
-/

/-- Apply an impulse `J` at contact offsets `ra`/`rb` to the pair, exactly
as both impulse blocks of `resolveCollision` do. -/
def applyContactImpulse (a b : PhysicsObject) (ra rb J : Vec3) :
    PhysicsObject × PhysicsObject :=
  let invMassA := if a.isStatic then 0 else 1 / a.mass
  let invMassB := if b.isStatic then 0 else 1 / b.mass
  let invIA := invInertia a.momentOfInertia
  let invIB := invInertia b.momentOfInertia
  ((if a.isStatic then a else
    { a with
      velocity := a.velocity.addScaledVector J invMassA
      angularVelocity := a.angularVelocity.add ((ra.cross J).multiplyScalar invIA) }),
   (if b.isStatic then b else
    { b with
      velocity := b.velocity.addScaledVector J (-invMassB)
      angularVelocity := b.angularVelocity.add ((rb.cross J.negate).multiplyScalar invIB) }))

/-- Baumgarte-style position correction block of `resolveCollision`. -/
def correctPositions (a b : PhysicsObject) (normal : Vec3) (penetration : ℚ) :
    PhysicsObject × PhysicsObject :=
  let invMassA := if a.isStatic then 0 else 1 / a.mass
  let invMassB := if b.isStatic then 0 else 1 / b.mass
  let invSum := invMassA + invMassB
  if penetration > 1 / 1000 ∧ invSum > 0 then
    let correction := normal.multiplyScalar ((penetration - 1 / 1000) / invSum * (4 / 5))
    ((if a.isStatic then a
      else { a with position := a.position.addScaledVector correction invMassA }),
     (if b.isStatic then b
      else { b with position := b.position.addScaledVector correction (-invMassB) }))
  else (a, b)

namespace PhysicsObject

/-- physics.js `resolveCollision(other)` as a function on the pair.  The
coincident-centers branch reassigns the contact direction from `rotUp`
(the rotated world-up of the first body) before normalising. -/
def resolveCollision (rt : ℚ → ℚ) (a b : PhysicsObject) :
    PhysicsObject × PhysicsObject :=
  if a.isStatic ∧ b.isStatic then (a, b) else
  let diff := a.position.sub b.position
  let d0 := rt diff.lengthSq
  let nv := if d0 = 0 then a.rotUp else diff
  let dist := if d0 = 0 then rt a.rotUp.lengthSq else d0
  if dist = 0 then (a, b) else
  let normal := nv.divideScalar dist
  let penetration := a.radius + b.radius - dist
  let p1 := correctPositions a b normal penetration
  let a1 := p1.1
  let b1 := p1.2
  let ra := normal.multiplyScalar (-a.radius)
  let rb := normal.multiplyScalar b.radius
  let velA := a1.velocity.add (a1.angularVelocity.cross ra)
  let velB := b1.velocity.add (b1.angularVelocity.cross rb)
  let relativeVelocity := velA.sub velB
  let velAlongNormal := relativeVelocity.dot normal
  if velAlongNormal > 0 then (a1, b1) else
  let restitution := min a.restitution b.restitution
  let invMassA := if a.isStatic then 0 else 1 / a.mass
  let invMassB := if b.isStatic then 0 else 1 / b.mass
  let invIA := invInertia a.momentOfInertia
  let invIB := invInertia b.momentOfInertia
  let raCrossN := ra.cross normal
  let rbCrossN := rb.cross normal
  let angularTerm := raCrossN.lengthSq * invIA + rbCrossN.lengthSq * invIB
  let invEffectiveMass := invMassA + invMassB + angularTerm
  if invEffectiveMass = 0 then (a1, b1) else
  let j := -(1 + restitution) * velAlongNormal / invEffectiveMass
  let impulse := normal.multiplyScalar j
  let p2 := applyContactImpulse a1 b1 ra rb impulse
  let a2 := p2.1
  let b2 := p2.2
  let tangent := relativeVelocity.sub (normal.multiplyScalar (relativeVelocity.dot normal))
  let tLen := rt tangent.lengthSq
  if tLen > 1 / 1000000 then
    let tdir := tangent.divideScalar tLen
    let raCrossT := ra.cross tdir
    let rbCrossT := rb.cross tdir
    let angularTermT := raCrossT.lengthSq * invIA + rbCrossT.lengthSq * invIB
    let invEffMassT := invMassA + invMassB + angularTermT
    let jt := -(relativeVelocity.dot tdir) / (if invEffMassT = 0 then 1 else invEffMassT)
    let maxFriction := min a.friction b.friction * j
    let frictionImpulseScalar := max (-|maxFriction|) (min jt |maxFriction|)
    let frictionImpulse := tdir.multiplyScalar frictionImpulseScalar
    applyContactImpulse a2 b2 ra rb frictionImpulse
  else (a2, b2)

end PhysicsObject

theorem aci_fst_mass (a b : PhysicsObject) (ra rb J : Vec3) :
    (applyContactImpulse a b ra rb J).1.mass = a.mass := by
  simp only [applyContactImpulse]; split_ifs <;> rfl

theorem aci_snd_mass (a b : PhysicsObject) (ra rb J : Vec3) :
    (applyContactImpulse a b ra rb J).2.mass = b.mass := by
  simp only [applyContactImpulse]; split_ifs <;> rfl

theorem aci_fst_isStatic (a b : PhysicsObject) (ra rb J : Vec3) :
    (applyContactImpulse a b ra rb J).1.isStatic = a.isStatic := by
  simp only [applyContactImpulse]; split_ifs <;> rfl

theorem aci_snd_isStatic (a b : PhysicsObject) (ra rb J : Vec3) :
    (applyContactImpulse a b ra rb J).2.isStatic = b.isStatic := by
  simp only [applyContactImpulse]; split_ifs <;> rfl

theorem cp_fst_velocity (a b : PhysicsObject) (n : Vec3) (p : ℚ) :
    (correctPositions a b n p).1.velocity = a.velocity := by
  simp only [correctPositions]; split_ifs <;> rfl

theorem cp_snd_velocity (a b : PhysicsObject) (n : Vec3) (p : ℚ) :
    (correctPositions a b n p).2.velocity = b.velocity := by
  simp only [correctPositions]; split_ifs <;> rfl

theorem cp_fst_mass (a b : PhysicsObject) (n : Vec3) (p : ℚ) :
    (correctPositions a b n p).1.mass = a.mass := by
  simp only [correctPositions]; split_ifs <;> rfl

theorem cp_snd_mass (a b : PhysicsObject) (n : Vec3) (p : ℚ) :
    (correctPositions a b n p).2.mass = b.mass := by
  simp only [correctPositions]; split_ifs <;> rfl

theorem cp_fst_isStatic (a b : PhysicsObject) (n : Vec3) (p : ℚ) :
    (correctPositions a b n p).1.isStatic = a.isStatic := by
  simp only [correctPositions]; split_ifs <;> rfl

theorem cp_snd_isStatic (a b : PhysicsObject) (n : Vec3) (p : ℚ) :
    (correctPositions a b n p).2.isStatic = b.isStatic := by
  simp only [correctPositions]; split_ifs <;> rfl

/-- Each impulse application conserves `m_a·v_a + m_b·v_b` when both
bodies are dynamic. -/
theorem aci_momentum (a b : PhysicsObject) (ra rb J : Vec3)
    (hsa : a.isStatic = false) (hsb : b.isStatic = false)
    (hma : a.mass ≠ 0) (hmb : b.mass ≠ 0) :
    ((applyContactImpulse a b ra rb J).1.velocity.multiplyScalar a.mass).add
      ((applyContactImpulse a b ra rb J).2.velocity.multiplyScalar b.mass) =
    (a.velocity.multiplyScalar a.mass).add (b.velocity.multiplyScalar b.mass) := by
  unfold applyContactImpulse
  simp only [hsa, hsb, Bool.false_eq_true, if_false]
  rw [Vec3.ext_iff]
  refine ⟨?_, ?_, ?_⟩ <;>
    (simp only [Vec3.add_x, Vec3.add_y, Vec3.add_z, Vec3.mulS_x, Vec3.mulS_y, Vec3.mulS_z,
      Vec3.addSc_x, Vec3.addSc_y, Vec3.addSc_z]
     field_simp
     ring)

/-- Impulse-pair momentum conservation, phrased with explicit mass values
so it can be chained through the stages of `resolveCollision`. -/
theorem aci_momentum_chain (a b : PhysicsObject) (ra rb J : Vec3) (ma mb : ℚ)
    (hsa : a.isStatic = false) (hsb : b.isStatic = false)
    (hmae : a.mass = ma) (hmbe : b.mass = mb) (hma0 : ma ≠ 0) (hmb0 : mb ≠ 0) :
    ((applyContactImpulse a b ra rb J).1.velocity.multiplyScalar ma).add
      ((applyContactImpulse a b ra rb J).2.velocity.multiplyScalar mb) =
    (a.velocity.multiplyScalar ma).add (b.velocity.multiplyScalar mb) := by
  subst hmae hmbe
  exact aci_momentum a b ra rb J hsa hsb hma0 hmb0

/-- C9: for every pair of non-static spheres resolved by
`resolveCollision`, the normal impulse and the friction impulse are applied
equally and oppositely scaled by the two inverse masses, so the total
linear momentum `m_a·v_a + m_b·v_b` is unchanged by the velocity updates of
the call (for every square-root oracle: the impulses cancel whatever
contact direction is used). -/
theorem resolveCollision_momentum_conserved (rt : ℚ → ℚ) (a b : PhysicsObject)
    (hsa : a.isStatic = false) (hsb : b.isStatic = false)
    (hma : a.mass ≠ 0) (hmb : b.mass ≠ 0) :
    ((PhysicsObject.resolveCollision rt a b).1.velocity.multiplyScalar a.mass).add
      ((PhysicsObject.resolveCollision rt a b).2.velocity.multiplyScalar b.mass) =
    (a.velocity.multiplyScalar a.mass).add (b.velocity.multiplyScalar b.mass) := by
  unfold PhysicsObject.resolveCollision
  simp only [hsa, hsb, Bool.false_eq_true, false_and, if_false]
  split_ifs <;>
    first
      | rfl
      | (rw [cp_fst_velocity, cp_snd_velocity] <;> done)
      | (rw [aci_momentum_chain, cp_fst_velocity, cp_snd_velocity] <;>
          simp [cp_fst_isStatic, cp_snd_isStatic, cp_fst_mass, cp_snd_mass,
            hsa, hsb, hma, hmb] <;> done)
      | (rw [aci_momentum_chain, aci_momentum_chain, cp_fst_velocity, cp_snd_velocity] <;>
          simp [aci_fst_isStatic, aci_snd_isStatic, aci_fst_mass, aci_snd_mass,
            cp_fst_isStatic, cp_snd_isStatic, cp_fst_mass, cp_snd_mass,
            hsa, hsb, hma, hmb] <;> done)

/-- Witness for C9: two dynamic unit spheres meeting head-on. -/
theorem resolveCollision_momentum_conserved_witness :
    ((PhysicsObject.make 1 ⟨0, 0, 0⟩ ⟨1, 0, 0⟩).isStatic = false ∧
      (PhysicsObject.make 2 ⟨3/2, 0, 0⟩ ⟨-1, 0, 0⟩).isStatic = false ∧
      (PhysicsObject.make 1 ⟨0, 0, 0⟩ ⟨1, 0, 0⟩).mass ≠ 0 ∧
      (PhysicsObject.make 2 ⟨3/2, 0, 0⟩ ⟨-1, 0, 0⟩).mass ≠ 0) ∧
    ((PhysicsObject.resolveCollision (fun q => q)
        (PhysicsObject.make 1 ⟨0, 0, 0⟩ ⟨1, 0, 0⟩)
        (PhysicsObject.make 2 ⟨3/2, 0, 0⟩ ⟨-1, 0, 0⟩)).1.velocity.multiplyScalar
          (PhysicsObject.make 1 ⟨0, 0, 0⟩ ⟨1, 0, 0⟩).mass).add
      ((PhysicsObject.resolveCollision (fun q => q)
        (PhysicsObject.make 1 ⟨0, 0, 0⟩ ⟨1, 0, 0⟩)
        (PhysicsObject.make 2 ⟨3/2, 0, 0⟩ ⟨-1, 0, 0⟩)).2.velocity.multiplyScalar
          (PhysicsObject.make 2 ⟨3/2, 0, 0⟩ ⟨-1, 0, 0⟩).mass) =
    ((PhysicsObject.make 1 ⟨0, 0, 0⟩ ⟨1, 0, 0⟩).velocity.multiplyScalar
        (PhysicsObject.make 1 ⟨0, 0, 0⟩ ⟨1, 0, 0⟩).mass).add
      ((PhysicsObject.make 2 ⟨3/2, 0, 0⟩ ⟨-1, 0, 0⟩).velocity.multiplyScalar
        (PhysicsObject.make 2 ⟨3/2, 0, 0⟩ ⟨-1, 0, 0⟩).mass) :=
  ⟨⟨by simp [PhysicsObject.make], by simp [PhysicsObject.make],
    by norm_num [PhysicsObject.make], by norm_num [PhysicsObject.make]⟩,
   resolveCollision_momentum_conserved (fun q => q) _ _
     (by simp [PhysicsObject.make]) (by simp [PhysicsObject.make])
     (by norm_num [PhysicsObject.make]) (by norm_num [PhysicsObject.make])⟩

/-- Dot-product algebra used for the contact-response theorems. -/
theorem Vec3.dot_add_left (u v n : Vec3) : (u.add v).dot n = u.dot n + v.dot n := by
  simp [Vec3.dot_def]; ring

theorem Vec3.dot_sub_left (u v n : Vec3) : (u.sub v).dot n = u.dot n - v.dot n := by
  simp [Vec3.dot_def]; ring

theorem Vec3.dot_smul_left (u n : Vec3) (s : ℚ) :
    (u.multiplyScalar s).dot n = s * (u.dot n) := by
  simp [Vec3.dot_def]; ring

theorem Vec3.dot_addScaled_left (u v n : Vec3) (s : ℚ) :
    (u.addScaledVector v s).dot n = u.dot n + s * (v.dot n) := by
  simp [Vec3.dot_def]; ring

theorem Vec3.cross_dot_right (w n : Vec3) : (w.cross n).dot n = 0 := by
  simp [Vec3.dot_def]; ring

/-- A detected contact (the swept hits carry a time of impact `t`; for
discrete contacts the code builds the object without it, modelled as 0). -/
structure Contact where
  t : ℚ
  point : Vec3
  normal : Vec3
  penetration : ℚ
  triangle : Triangle
deriving DecidableEq, Repr

/-- The fields of a static triangle-mesh PhysicsObject consulted by the
mesh-collision path: its triangle soup, its built BVH root (null before
`buildTriangleMesh`), and its material coefficients. -/
structure TriMesh where
  triangles : List Triangle
  bvh : Option BVHNode
  restitution : ℚ
  friction : ℚ
deriving DecidableEq, Repr

namespace PhysicsObject

/-- part_006 `handleCollisionResponse(contact, triangleMesh)`: 80% position
correction for significant penetration, then either a restitution bounce
with Coulomb-capped rolling friction (when approaching) or the
half-strength resting-contact correction. -/
def handleCollisionResponse (rt : ℚ → ℚ) (b : PhysicsObject) (contact : Contact)
    (triangleMesh : TriMesh) : PhysicsObject :=
  let velAlongNormal := b.velocity.dot contact.normal
  let b1 :=
    if contact.penetration > 1 / 1000 then
      { b with position :=
          b.position.addScaledVector contact.normal (contact.penetration * (4 / 5)) }
    else b
  if velAlongNormal < -(1 / 1000) then
    let vNormal := contact.normal.multiplyScalar velAlongNormal
    let vTangent := b.velocity.sub vNormal
    let restitution := min b.restitution triangleMesh.restitution
    let reflectedNormalSpeed := -velAlongNormal * restitution
    let newVNormal := contact.normal.multiplyScalar reflectedNormalSpeed
    let friction := min b.friction triangleMesh.friction
    if friction > 1 / 1000 then
      let vRoll := (b.angularVelocity.cross contact.normal).multiplyScalar b.radius
      let vSlip := vTangent.sub vRoll
      let slipSpeed := vSlip.length rt
      if slipSpeed > 1 / 10000 then
        let slipDir := vSlip.normalize rt
        let normalImpulse := |velAlongNormal| * (1 + restitution)
        let maxFriction := friction * normalImpulse
        let inertiaFactor := 1 + b.radius * b.radius / (inertiaVal b.momentOfInertia / b.mass)
        let frictionImpulse := min (slipSpeed / inertiaFactor) maxFriction
        let vTangent2 := vTangent.addScaledVector slipDir (-frictionImpulse)
        let torque := (contact.normal.multiplyScalar (-b.radius)).cross
          (slipDir.multiplyScalar (-frictionImpulse * b.mass))
        { b1 with
          velocity := newVNormal.add vTangent2
          angularVelocity :=
            b.angularVelocity.add (torque.divideScalar (inertiaVal b.momentOfInertia)) }
      else { b1 with velocity := newVNormal.add vTangent }
    else { b1 with velocity := newVNormal.add vTangent }
  else if velAlongNormal < 1 / 10 ∧ contact.penetration < 1 / 20 then
    { b1 with velocity :=
        b.velocity.sub ((contact.normal.multiplyScalar velAlongNormal).multiplyScalar (1 / 2)) }
  else b1

end PhysicsObject

/-- In the approach branch of `handleCollisionResponse` the new velocity's
normal component is exactly `-(min of the two restitutions)` times the old
one: the friction update is tangential (the slip direction is orthogonal to
a unit contact normal), so it cannot change the normal component. -/
theorem handleCollisionResponse_normal (rt : ℚ → ℚ) (b : PhysicsObject) (c : Contact)
    (mesh : TriMesh) (hn : c.normal.dot c.normal = 1)
    (happ : b.velocity.dot c.normal < -(1 / 1000)) :
    (PhysicsObject.handleCollisionResponse rt b c mesh).velocity.dot c.normal =
      -(min b.restitution mesh.restitution) * (b.velocity.dot c.normal) := by
  unfold PhysicsObject.handleCollisionResponse
  rw [if_pos happ]
  by_cases hfr : min b.friction mesh.friction > 1 / 1000
  · rw [if_pos hfr]
    by_cases hslip : Vec3.length rt
        ((b.velocity.sub (c.normal.multiplyScalar (b.velocity.dot c.normal))).sub
          ((b.angularVelocity.cross c.normal).multiplyScalar b.radius)) > 1 / 10000
    · rw [if_pos hslip]
      simp only [Vec3.dot_add_left, Vec3.dot_sub_left, Vec3.dot_smul_left,
        Vec3.dot_addScaled_left, Vec3.normalize, Vec3.divideScalar,
        Vec3.cross_dot_right, hn]
      ring
    · rw [if_neg hslip]
      simp only [Vec3.dot_add_left, Vec3.dot_sub_left, Vec3.dot_smul_left,
        Vec3.dot_addScaled_left, Vec3.cross_dot_right, hn]
      ring
  · rw [if_neg hfr]
    simp only [Vec3.dot_add_left, Vec3.dot_sub_left, Vec3.dot_smul_left,
      Vec3.dot_addScaled_left, Vec3.cross_dot_right, hn]
    ring

/-- The spec's combination rule, as a comparator: `resolveCollision` with
the restitution of the normal impulse abstracted into a parameter.  The
body is identical to `resolveCollision` except that `restitution` is the
argument instead of `min a.restitution b.restitution`. -/
def resolveCollisionWithRestitution (rt : ℚ → ℚ) (restitution : ℚ)
    (a b : PhysicsObject) : PhysicsObject × PhysicsObject :=
  if a.isStatic ∧ b.isStatic then (a, b) else
  let diff := a.position.sub b.position
  let d0 := rt diff.lengthSq
  let nv := if d0 = 0 then a.rotUp else diff
  let dist := if d0 = 0 then rt a.rotUp.lengthSq else d0
  if dist = 0 then (a, b) else
  let normal := nv.divideScalar dist
  let penetration := a.radius + b.radius - dist
  let p1 := correctPositions a b normal penetration
  let a1 := p1.1
  let b1 := p1.2
  let ra := normal.multiplyScalar (-a.radius)
  let rb := normal.multiplyScalar b.radius
  let velA := a1.velocity.add (a1.angularVelocity.cross ra)
  let velB := b1.velocity.add (b1.angularVelocity.cross rb)
  let relativeVelocity := velA.sub velB
  let velAlongNormal := relativeVelocity.dot normal
  if velAlongNormal > 0 then (a1, b1) else
  let invMassA := if a.isStatic then 0 else 1 / a.mass
  let invMassB := if b.isStatic then 0 else 1 / b.mass
  let invIA := invInertia a.momentOfInertia
  let invIB := invInertia b.momentOfInertia
  let raCrossN := ra.cross normal
  let rbCrossN := rb.cross normal
  let angularTerm := raCrossN.lengthSq * invIA + rbCrossN.lengthSq * invIB
  let invEffectiveMass := invMassA + invMassB + angularTerm
  if invEffectiveMass = 0 then (a1, b1) else
  let j := -(1 + restitution) * velAlongNormal / invEffectiveMass
  let impulse := normal.multiplyScalar j
  let p2 := applyContactImpulse a1 b1 ra rb impulse
  let a2 := p2.1
  let b2 := p2.2
  let tangent := relativeVelocity.sub (normal.multiplyScalar (relativeVelocity.dot normal))
  let tLen := rt tangent.lengthSq
  if tLen > 1 / 1000000 then
    let tdir := tangent.divideScalar tLen
    let raCrossT := ra.cross tdir
    let rbCrossT := rb.cross tdir
    let angularTermT := raCrossT.lengthSq * invIA + rbCrossT.lengthSq * invIB
    let invEffMassT := invMassA + invMassB + angularTermT
    let jt := -(relativeVelocity.dot tdir) / (if invEffMassT = 0 then 1 else invEffMassT)
    let maxFriction := min a.friction b.friction * j
    let frictionImpulseScalar := max (-|maxFriction|) (min jt |maxFriction|)
    let frictionImpulse := tdir.multiplyScalar frictionImpulseScalar
    applyContactImpulse a2 b2 ra rb frictionImpulse
  else (a2, b2)

/-- C5 (amended): in the sphere-vs-sphere path (`resolveCollision`) and the
BVH triangle-mesh path (`handleCollisionResponse`), the restitution applied
to the normal impulse is the minimum of the two contacting bodies'
coefficients — behaviourally, the post-response normal velocity in
`handleCollisionResponse` equals `-(min of the two restitutions)` times the
pre-response normal velocity, and `resolveCollision` is exactly the
restitution-parametric resolution instantiated with the minimum.  The
`CollisionManager.collideSphere` path instead applies its caller-supplied
restitution argument (default 0.7) regardless of the sphere's own
coefficient (see the counterexample). -/
theorem restitution_combination_rules (rt : ℚ → ℚ) (b : PhysicsObject) (c : Contact)
    (mesh : TriMesh) (a a2 : PhysicsObject)
    (hn : c.normal.dot c.normal = 1)
    (happ : b.velocity.dot c.normal < -(1 / 1000)) :
    (PhysicsObject.handleCollisionResponse rt b c mesh).velocity.dot c.normal =
      -(min b.restitution mesh.restitution) * (b.velocity.dot c.normal) ∧
    PhysicsObject.resolveCollision rt a a2 =
      resolveCollisionWithRestitution rt (min a.restitution a2.restitution) a a2 :=
  ⟨handleCollisionResponse_normal rt b c mesh hn happ, rfl⟩

/-- Witness for the amended C5 at a concrete approaching contact. -/
theorem restitution_combination_rules_witness :
    ((⟨0, Vec3.zero, ⟨0, 1, 0⟩, 1/2, ⟨⟨0,0,0⟩, ⟨1,0,0⟩, ⟨0,1,0⟩⟩⟩ : Contact).normal.dot
        (⟨0, Vec3.zero, ⟨0, 1, 0⟩, 1/2, ⟨⟨0,0,0⟩, ⟨1,0,0⟩, ⟨0,1,0⟩⟩⟩ : Contact).normal = 1 ∧
      (PhysicsObject.make 1 ⟨0, 1/2, 0⟩ ⟨0, -5, 0⟩).velocity.dot
        (⟨0, Vec3.zero, ⟨0, 1, 0⟩, 1/2, ⟨⟨0,0,0⟩, ⟨1,0,0⟩, ⟨0,1,0⟩⟩⟩ : Contact).normal <
        -(1 / 1000)) ∧
    ((PhysicsObject.handleCollisionResponse (fun q => q)
        (PhysicsObject.make 1 ⟨0, 1/2, 0⟩ ⟨0, -5, 0⟩)
        ⟨0, Vec3.zero, ⟨0, 1, 0⟩, 1/2, ⟨⟨0,0,0⟩, ⟨1,0,0⟩, ⟨0,1,0⟩⟩⟩
        ⟨[], none, 7/10, 1/2⟩).velocity.dot
          (⟨0, Vec3.zero, ⟨0, 1, 0⟩, 1/2, ⟨⟨0,0,0⟩, ⟨1,0,0⟩, ⟨0,1,0⟩⟩⟩ : Contact).normal =
        -(min (PhysicsObject.make 1 ⟨0, 1/2, 0⟩ ⟨0, -5, 0⟩).restitution (7/10)) *
          ((PhysicsObject.make 1 ⟨0, 1/2, 0⟩ ⟨0, -5, 0⟩).velocity.dot
            (⟨0, Vec3.zero, ⟨0, 1, 0⟩, 1/2, ⟨⟨0,0,0⟩, ⟨1,0,0⟩, ⟨0,1,0⟩⟩⟩ : Contact).normal) ∧
      PhysicsObject.resolveCollision (fun q => q)
          (PhysicsObject.make 1 ⟨0, 0, 0⟩ ⟨1, 0, 0⟩) (PhysicsObject.make 2 ⟨3, 0, 0⟩ ⟨0, 0, 0⟩) =
        resolveCollisionWithRestitution (fun q => q)
          (min (PhysicsObject.make 1 ⟨0, 0, 0⟩ ⟨1, 0, 0⟩).restitution
            (PhysicsObject.make 2 ⟨3, 0, 0⟩ ⟨0, 0, 0⟩).restitution)
          (PhysicsObject.make 1 ⟨0, 0, 0⟩ ⟨1, 0, 0⟩) (PhysicsObject.make 2 ⟨3, 0, 0⟩ ⟨0, 0, 0⟩)) :=
  ⟨⟨by norm_num [Vec3.dot_def], by norm_num [PhysicsObject.make, Vec3.dot_def]⟩,
   restitution_combination_rules (fun q => q) _ _ ⟨[], none, 7/10, 1/2⟩ _ _
     (by norm_num [Vec3.dot_def]) (by norm_num [PhysicsObject.make, Vec3.dot_def])⟩

/-- A prepared triangle as stored by `CollisionManager.addTriangles`:
vertices, a (pre-normalized, caller-supplied) face normal, and an
axis-aligned bounds record (minX..maxZ). -/
structure MTri where
  v0 : Vec3
  v1 : Vec3
  v2 : Vec3
  normal : Vec3
  bounds : AABB
deriving DecidableEq, Repr

/-- `CollisionManager.getNearbyTriangles(position, radius, margin)`:
AABB pre-filter with `searchRadius = radius + margin + 5`. -/
def getNearbyTriangles (triangles : List MTri) (position : Vec3)
    (radius margin : ℚ) : List MTri :=
  let searchRadius := radius + margin + 5
  triangles.filter fun tri =>
    if position.x + searchRadius < tri.bounds.min.x ∨
        position.x - searchRadius > tri.bounds.max.x then false
    else if position.y + searchRadius < tri.bounds.min.y ∨
        position.y - searchRadius > tri.bounds.max.y then false
    else if position.z + searchRadius < tri.bounds.min.z ∨
        position.z - searchRadius > tri.bounds.max.z then false
    else true

/-- `CollisionManager.closestPointOnTriangle(point, v0, v1, v2)`: the
manager's own s,t region-code closest-point routine (distinct from
`Triangle.closestPointToPoint` of the BVH module). -/
def closestPointOnTriangle (point v0 v1 v2 : Vec3) : Vec3 :=
  let edge0 := v1.sub v0
  let edge1 := v2.sub v0
  let v0ToPoint := v0.sub point
  let a := edge0.dot edge0
  let b := edge0.dot edge1
  let c := edge1.dot edge1
  let d := edge0.dot v0ToPoint
  let e := edge1.dot v0ToPoint
  let det := a * c - b * b
  let s0 := b * e - c * d
  let t0 := b * d - a * e
  let st : ℚ × ℚ :=
    if s0 + t0 ≤ det then
      if s0 < 0 then
        if t0 < 0 then
          if d < 0 then ((if -d ≥ a then 1 else -d / a), 0)
          else (0, if e ≥ 0 then 0 else if -e ≥ c then 1 else -e / c)
        else (0, if e ≥ 0 then 0 else if -e ≥ c then 1 else -e / c)
      else if t0 < 0 then
        ((if d ≥ 0 then 0 else if -d ≥ a then 1 else -d / a), 0)
      else (s0 * (1 / det), t0 * (1 / det))
    else
      if s0 < 0 then
        let tmp0 := b + d
        let tmp1 := c + e
        if tmp1 > tmp0 then
          let numer := tmp1 - tmp0
          let denom := a - 2 * b + c
          let s := if numer ≥ denom then 1 else numer / denom
          (s, 1 - s)
        else (0, if tmp1 ≤ 0 then 1 else if e ≥ 0 then 0 else -e / c)
      else if t0 < 0 then
        let tmp0 := b + e
        let tmp1 := a + d
        if tmp1 > tmp0 then
          let numer := tmp1 - tmp0
          let denom := a - 2 * b + c
          let t := if numer ≥ denom then 1 else numer / denom
          (1 - t, t)
        else ((if tmp1 ≤ 0 then 1 else if d ≥ 0 then 0 else -d / a), 0)
      else
        let numer := c + e - b - d
        let s := if numer ≤ 0 then 0
          else
            let denom := a - 2 * b + c
            if numer ≥ denom then 1 else numer / denom
        (s, 1 - s)
  (v0.addScaledVector edge0 st.1).addScaledVector edge1 st.2

/-- `CollisionManager.collideSphere(sphere, friction, restitution, dt)`.
The deepest-penetration scan (`deepestPenetration = -Infinity`) is a fold
with `Option` as the not-yet-found state; the returned pair is
(collided?, updated sphere).  The manager's inverse-inertia guard is
`I > 0 && I !== Infinity ? 1/I : 0`, written out inline. -/
def collideSphere (rt : ℚ → ℚ) (triangles : List MTri) (sphere : PhysicsObject)
    (friction restitution : ℚ) : Bool × PhysicsObject :=
  if sphere.isStatic then (false, sphere) else
  let nearby0 := getNearbyTriangles triangles sphere.position sphere.radius 5
  let nearby := if nearby0 = [] then triangles else nearby0
  let best := nearby.foldl (fun (acc : Option (Vec3 × Vec3 × ℚ)) triangle =>
    let closest := closestPointOnTriangle sphere.position triangle.v0 triangle.v1 triangle.v2
    let toSphere := sphere.position.sub closest
    let distance := rt toSphere.lengthSq
    let pen := sphere.radius - distance
    if pen > 0 then
      let keep :=
        match acc with
        | none => true
        | some (_, _, dp) => decide (pen > dp)
      if keep then
        let sphereToTriangle := triangle.v0.sub sphere.position
        let normal :=
          if triangle.normal.dot sphereToTriangle > 0 then triangle.normal.negate
          else triangle.normal
        some (closest, normal, pen)
      else acc
    else acc) none
  match best with
  | none => (false, sphere)
  | some (point, normal, pen) =>
    let pos1 := sphere.position.addScaledVector normal pen
    let ra := point.sub pos1
    let velAtContact := sphere.velocity.add (sphere.angularVelocity.cross ra)
    let velAlongNormal := velAtContact.dot normal
    if velAlongNormal < 0 then
      let invMass := 1 / sphere.mass
      let invI :=
        match sphere.momentOfInertia with
        | none => 0
        | some i => if i > 0 then 1 / i else 0
      let raCrossN := ra.cross normal
      let angularTerm := raCrossN.lengthSq * invI
      let invEffectiveMass := invMass + angularTerm
      let j := -(1 + restitution) * velAlongNormal / invEffectiveMass
      let impulse := normal.multiplyScalar j
      let vel1 := sphere.velocity.addScaledVector impulse invMass
      let av1 := sphere.angularVelocity.add (raCrossN.multiplyScalar (j * invI))
      let tangent := velAtContact.sub (normal.multiplyScalar velAlongNormal)
      let tangentLen := rt tangent.lengthSq
      if tangentLen > 1 / 1000000 then
        let tdir := Vec3.normalize rt tangent
        let raCrossT := ra.cross tdir
        let angularTermT := raCrossT.lengthSq * invI
        let invEffMassT := invMass + angularTermT
        let jt := -(velAtContact.dot tdir) / invEffMassT
        let frictionScalar := clampQ jt (-|j| * friction) (|j| * friction)
        let frictionImpulse := tdir.multiplyScalar frictionScalar
        let vel2 := vel1.addScaledVector frictionImpulse invMass
        let av2 := av1.add (raCrossT.multiplyScalar (frictionScalar * invI))
        (true, { sphere with position := pos1, velocity := vel2, angularVelocity := av2 })
      else
        (true, { sphere with position := pos1, velocity := vel1, angularVelocity := av1 })
    else
      (true, { sphere with position := pos1 })

/-- Square-root oracle table for the counterexample scene: the only
lengths taken are √(1/4) = 1/2 (sphere center to contact point) and
√0 = 0 (tangential velocity). -/
def rtC : ℚ → ℚ := fun q => if q = 1 / 4 then 1 / 2 else 0

/-- A unit sphere with restitution overridden to 0, half-overlapping the
floor and moving straight down. -/
def sphereC : PhysicsObject :=
  { PhysicsObject.make 1 ⟨0, 1/2, 0⟩ ⟨0, -5, 0⟩ with restitution := 0 }

/-- A large floor triangle (as prepared by `addTriangles`) under the sphere. -/
def mtriC : MTri :=
  ⟨⟨-10, 0, -10⟩, ⟨10, 0, -10⟩, ⟨0, 0, 10⟩, ⟨0, 1, 0⟩, ⟨⟨-10, 0, -10⟩, ⟨10, 0, 10⟩⟩⟩

/-- Counterexample to C5 as stated: `CollisionManager.collideSphere` applies
its caller-supplied restitution argument (default 0.7), not the minimum of
the two bodies' coefficients.  A sphere with restitution 0 rebounds at
normal speed 7/2 = 0.7·5 instead of the 0 the minimum rule demands. -/
theorem collideSphere_restitution_counterexample :
    sphereC.restitution = 0 ∧
    min sphereC.restitution (7 / 10) = 0 ∧
    ((collideSphere rtC [mtriC] sphereC (1 / 2) (7 / 10)).2.velocity.dot ⟨0, 1, 0⟩ = 7 / 2 ∧
      -(min sphereC.restitution (7 / 10)) * (sphereC.velocity.dot ⟨0, 1, 0⟩) = 0) ∧
    (7 / 2 : ℚ) ≠ 0 := by
  refine ⟨rfl, by norm_num [sphereC, PhysicsObject.make], ⟨?_, ?_⟩, by norm_num⟩
  · norm_num [collideSphere, getNearbyTriangles, closestPointOnTriangle, rtC, sphereC,
      mtriC, PhysicsObject.make, Vec3.sub, Vec3.add, Vec3.dot_def, Vec3.lengthSq,
      Vec3.addScaledVector, Vec3.multiplyScalar, Vec3.cross, Vec3.negate, Vec3.zero,
      invInertia, Vec3.normalize, Vec3.length, Vec3.divideScalar, clampQ, List.filter,
      List.foldl]
  · norm_num [sphereC, PhysicsObject.make, Vec3.dot_def]

/-- `_aabbIntersectsAABB(a, b)`: closed-interval overlap on the three axes. -/
def AABB.intersectsAABB (a b : AABB) : Prop :=
  (a.min.x ≤ b.max.x ∧ a.max.x ≥ b.min.x) ∧
  (a.min.y ≤ b.max.y ∧ a.max.y ≥ b.min.y) ∧
  (a.min.z ≤ b.max.z ∧ a.max.z ≥ b.min.z)

instance (a b : AABB) : Decidable (a.intersectsAABB b) := by
  unfold AABB.intersectsAABB; infer_instance

/-- `_getSweptAABB(startPos, direction, distance)`: box of the swept path,
inflated by the radius. -/
def PhysicsObject.getSweptAABB (b : PhysicsObject) (startPos direction : Vec3)
    (distance : ℚ) : AABB :=
  let endPos := startPos.add (direction.multiplyScalar distance)
  ⟨⟨min startPos.x endPos.x - b.radius, min startPos.y endPos.y - b.radius,
    min startPos.z endPos.z - b.radius⟩,
   ⟨max startPos.x endPos.x + b.radius, max startPos.y endPos.y + b.radius,
    max startPos.z endPos.z + b.radius⟩⟩

/-- `sweepSphereTriangle(startPos, direction, distance, tri)`: swept-AABB
pre-check, immediate `t = 0` contact when already overlapping at the start,
back-face cull (`denominator > -1e-6`), then plane time-of-impact clamped
to [0,1] with a closest-point distance validation. -/
def PhysicsObject.sweepSphereTriangle (rt : ℚ → ℚ) (b : PhysicsObject)
    (startPos direction : Vec3) (distance : ℚ) (tri : Triangle) : Option Contact :=
  if ¬ (b.getSweptAABB startPos direction distance).intersectsAABB tri.computeAABB then
    none
  else
    let startClosest := tri.closestPointToPoint startPos
    let startDist := Vec3.distanceTo rt startPos startClosest
    if startDist < b.radius then
      let pen := b.radius - startDist
      let normal :=
        if startDist > 1 / 1000000 then Vec3.normalize rt (startPos.sub startClosest)
        else Triangle.normal rt tri
      some ⟨0, startClosest, normal, pen, tri⟩
    else
      let planeNormal := Triangle.normal rt tri
      let denominator := direction.dot planeNormal
      if denominator > -(1 / 1000000) then none
      else
        let d := planeNormal.dot tri.v0
        let distToPlane := (d - planeNormal.dot startPos) / denominator
        if distToPlane < -b.radius ∨ distToPlane > distance + b.radius then none
        else
          let t := max 0 (min 1 ((distToPlane - b.radius) / distance))
          let sphereCenter := startPos.add (direction.multiplyScalar (t * distance))
          let closestPoint := tri.closestPointToPoint sphereCenter
          let distToClosest := Vec3.distanceTo rt sphereCenter closestPoint
          if distToClosest > b.radius + 1 / 100 then none
          else
            let pen := b.radius - distToClosest
            let normal :=
              if distToClosest > 1 / 1000000 then
                Vec3.normalize rt (sphereCenter.sub closestPoint)
              else planeNormal
            some ⟨t, closestPoint, normal, max 0 pen, tri⟩

/-- One iteration of `sweptCollision`'s earliest-hit loop: the accumulator
carries (earliestHit, earliestTime), starting at (null, 1.0), and a hit
replaces it exactly when its `t` is strictly smaller. -/
def sweptStep (rt : ℚ → ℚ) (b : PhysicsObject) (startPos direction : Vec3)
    (distance : ℚ) (acc : Option Contact × ℚ) (tri : Triangle) : Option Contact × ℚ :=
  match PhysicsObject.sweepSphereTriangle rt b startPos direction distance tri with
  | some hit => if hit.t < acc.2 then (some hit, hit.t) else acc
  | none => acc

/-- The candidate query of `sweptCollision`: BVH query at the midpoint of
the swept path with radius `radius + distance`. -/
def PhysicsObject.sweptCandidates (rt : ℚ → ℚ) (b : PhysicsObject) (root : BVHNode)
    (displacement : Vec3) : List Triangle :=
  let startPos := b.position
  let endPos := startPos.add displacement
  let distance := displacement.length rt
  let queryRadius := b.radius + distance
  let queryCenter := (startPos.add endPos).multiplyScalar (1 / 2)
  querySphere6 root queryCenter queryRadius 50

/-- The earliest-hit fold of `sweptCollision` over the candidate list. -/
def PhysicsObject.sweptEarliest (rt : ℚ → ℚ) (b : PhysicsObject) (displacement : Vec3)
    (cands : List Triangle) : Option Contact × ℚ :=
  cands.foldl
    (sweptStep rt b b.position (displacement.normalize rt) (displacement.length rt))
    (none, 1)

/-- `sweptCollision(triangleMesh, displacement, dt)`: query candidates along
the swept path, select the earliest hit, advance the position by
`max(0, earliestTime*distance - 0.002)` along the motion direction, and
resolve the single resulting contact. -/
def PhysicsObject.sweptCollision (rt : ℚ → ℚ) (b : PhysicsObject) (mesh : TriMesh)
    (displacement : Vec3) : PhysicsObject :=
  match mesh.bvh with
  | none => b
  | some root =>
    let direction := displacement.normalize rt
    let distance := displacement.length rt
    let candidateTriangles := b.sweptCandidates rt root displacement
    if candidateTriangles = [] then b
    else
      match (b.sweptEarliest rt displacement candidateTriangles).1 with
      | none => b
      | some earliestHit =>
        let travelDistance := max 0 (earliestHit.t * distance - 1 / 500)
        let safePosition := b.position.add (direction.multiplyScalar travelDistance)
        PhysicsObject.handleCollisionResponse rt { b with position := safePosition }
          earliestHit mesh

/-- The contact-building pass of `discreteCollision`: closest point per
candidate triangle, a contact when the distance is below `radius + 0.01`
(discrete contacts carry no time of impact; `t` is recorded as 0). -/
def discreteContacts (rt : ℚ → ℚ) (b : PhysicsObject)
    (candidates : List Triangle) : List Contact :=
  candidates.filterMap fun tri =>
    let closest := tri.closestPointToPoint b.position
    let dist := Vec3.distanceTo rt b.position closest
    if dist < b.radius + 1 / 100 then
      let pen := b.radius - dist
      let normal :=
        if dist > 1 / 1000000 then Vec3.normalize rt (b.position.sub closest)
        else Triangle.normal rt tri
      some ⟨0, closest, normal, pen, tri⟩
    else none

/-- `discreteCollision(triangleMesh, dt)`: BVH query at the current position
with radius `radius * 1.5`, contacts sorted by descending penetration
(`contacts.sort((a, b) => b.penetration - a.penetration)`, a stable sort),
and only `contacts[0]` — the deepest — is resolved. -/
def PhysicsObject.discreteCollision (rt : ℚ → ℚ) (b : PhysicsObject)
    (mesh : TriMesh) : PhysicsObject :=
  match mesh.bvh with
  | none => b
  | some root =>
    let candidateTriangles := querySphere6 root b.position (b.radius * (3 / 2)) 50
    if candidateTriangles = [] then b
    else
      let contacts := discreteContacts rt b candidateTriangles
      if contacts = [] then b
      else
        match List.insertionSort (fun c1 c2 => c2.penetration ≤ c1.penetration) contacts with
        | [] => b
        | contact :: _ => PhysicsObject.handleCollisionResponse rt b contact mesh

/-- `collideWithTriangleMesh(triangleMesh, dt)`: swept (CCD) when the
per-step displacement exceeds half the radius, discrete otherwise. -/
def PhysicsObject.collideWithTriangleMesh (rt : ℚ → ℚ) (b : PhysicsObject)
    (mesh : TriMesh) (dt : ℚ) : PhysicsObject :=
  if mesh.bvh = none ∨ mesh.triangles = [] then b
  else
    let velocity := b.velocity
    let displacement := velocity.multiplyScalar dt
    let displacementLength := displacement.length rt
    if displacementLength > b.radius * (1 / 2) then
      b.sweptCollision rt mesh displacement
    else
      b.discreteCollision rt mesh

theorem sweptStep_none (rt : ℚ → ℚ) (b : PhysicsObject) (sp dir : Vec3) (dist : ℚ)
    (acc : Option Contact × ℚ) (tri : Triangle)
    (hs : PhysicsObject.sweepSphereTriangle rt b sp dir dist tri = none) :
    sweptStep rt b sp dir dist acc tri = acc := by
  unfold sweptStep
  rw [hs]

theorem sweptStep_some (rt : ℚ → ℚ) (b : PhysicsObject) (sp dir : Vec3) (dist : ℚ)
    (acc : Option Contact × ℚ) (tri : Triangle) (hit : Contact)
    (hs : PhysicsObject.sweepSphereTriangle rt b sp dir dist tri = some hit) :
    sweptStep rt b sp dir dist acc tri =
      if hit.t < acc.2 then (some hit, hit.t) else acc := by
  unfold sweptStep
  rw [hs]

theorem sweptFold_le (rt : ℚ → ℚ) (b : PhysicsObject) (sp dir : Vec3) (dist : ℚ) :
    ∀ (l : List Triangle) (init : Option Contact × ℚ),
    (l.foldl (sweptStep rt b sp dir dist) init).2 ≤ init.2 := by
  intro l
  induction l with
  | nil => intro init; exact le_refl _
  | cons tri rest ih =>
    intro init
    rw [List.foldl_cons]
    refine le_trans (ih _) ?_
    rcases hs : PhysicsObject.sweepSphereTriangle rt b sp dir dist tri with _ | hit
    · rw [sweptStep_none rt b sp dir dist init tri hs]
    · rw [sweptStep_some rt b sp dir dist init tri hit hs]
      split_ifs with hlt
      · exact le_of_lt hlt
      · exact le_refl _

theorem sweptFold_invariant (rt : ℚ → ℚ) (b : PhysicsObject) (sp dir : Vec3) (dist : ℚ) :
    ∀ (l : List Triangle) (init : Option Contact × ℚ),
    l.foldl (sweptStep rt b sp dir dist) init = init ∨
    ∃ h : Contact,
      (l.foldl (sweptStep rt b sp dir dist) init).1 = some h ∧
      (l.foldl (sweptStep rt b sp dir dist) init).2 = h.t ∧
      h.t < init.2 ∧
      ∃ tri ∈ l, PhysicsObject.sweepSphereTriangle rt b sp dir dist tri = some h := by
  intro l
  induction l with
  | nil => intro init; exact Or.inl rfl
  | cons tri rest ih =>
    intro init
    rw [List.foldl_cons]
    rcases hs : PhysicsObject.sweepSphereTriangle rt b sp dir dist tri with _ | hit
    · rw [sweptStep_none rt b sp dir dist init tri hs]
      rcases ih init with heq | ⟨h, h1, h2, h3, tri2, htri2, hs2⟩
      · exact Or.inl heq
      · exact Or.inr ⟨h, h1, h2, h3, tri2, List.mem_cons_of_mem _ htri2, hs2⟩
    · rw [sweptStep_some rt b sp dir dist init tri hit hs]
      by_cases hlt : hit.t < init.2
      · rw [if_pos hlt]
        rcases ih (some hit, hit.t) with heq | ⟨h, h1, h2, h3, tri2, htri2, hs2⟩
        · rw [heq]
          exact Or.inr ⟨hit, rfl, rfl, hlt, tri, List.mem_cons_self _ _, hs⟩
        · exact Or.inr ⟨h, h1, h2, lt_trans h3 hlt, tri2, List.mem_cons_of_mem _ htri2, hs2⟩
      · rw [if_neg hlt]
        rcases ih init with heq | ⟨h, h1, h2, h3, tri2, htri2, hs2⟩
        · exact Or.inl heq
        · exact Or.inr ⟨h, h1, h2, h3, tri2, List.mem_cons_of_mem _ htri2, hs2⟩

theorem sweptFold_min (rt : ℚ → ℚ) (b : PhysicsObject) (sp dir : Vec3) (dist : ℚ) :
    ∀ (l : List Triangle) (init : Option Contact × ℚ) (tri : Triangle), tri ∈ l →
    ∀ h2 : Contact, PhysicsObject.sweepSphereTriangle rt b sp dir dist tri = some h2 →
    (l.foldl (sweptStep rt b sp dir dist) init).2 ≤ h2.t := by
  intro l
  induction l with
  | nil => intro init tri htri; exact absurd htri (List.not_mem_nil _)
  | cons tri0 rest ih =>
    intro init tri htri h2 hs2
    rw [List.foldl_cons]
    rcases List.mem_cons.mp htri with heq | hmem
    · subst heq
      refine le_trans (sweptFold_le rt b sp dir dist rest _) ?_
      rw [sweptStep_some rt b sp dir dist init tri h2 hs2]
      split_ifs with hlt
      · exact le_refl _
      · exact not_lt.mp hlt
    · exact ih (sweptStep rt b sp dir dist init tri0) tri hmem h2 hs2

set_option maxHeartbeats 2000000 in
theorem sweepSphereTriangle_t_range (rt : ℚ → ℚ) (b : PhysicsObject)
    (sp dir : Vec3) (dist : ℚ) (tri : Triangle) (h : Contact)
    (hh : PhysicsObject.sweepSphereTriangle rt b sp dir dist tri = some h) :
    0 ≤ h.t ∧ h.t ≤ 1 := by
  simp only [PhysicsObject.sweepSphereTriangle] at hh
  split_ifs at hh
  all_goals injection hh with hh
  all_goals subst hh
  all_goals first
  | exact ⟨le_refl 0, by norm_num⟩
  | exact ⟨le_max_left _ _, max_le (by norm_num) (min_le_left _ _)⟩

theorem sweepSphereTriangle_culled (rt : ℚ → ℚ) (b : PhysicsObject)
    (sp dir : Vec3) (dist : ℚ) (tri : Triangle)
    (hov : ¬ Vec3.distanceTo rt sp (tri.closestPointToPoint sp) < b.radius)
    (hden : dir.dot (Triangle.normal rt tri) > -(1 / 1000000)) :
    PhysicsObject.sweepSphereTriangle rt b sp dir dist tri = none := by
  simp only [PhysicsObject.sweepSphereTriangle]
  by_cases hA : (b.getSweptAABB sp dir dist).intersectsAABB tri.computeAABB
  · rw [if_neg (not_not_intro hA), if_neg hov, if_pos hden]
  · rw [if_pos hA]

/-- C3 (amended): with a built BVH, when the earliest-hit scan of the swept
path returns a hit `h`, that hit comes from one of the BVH candidates, its
time of impact lies in [0,1) and is minimal among every candidate's swept
hit, and `sweptCollision` advances the position along the motion direction
by exactly `max 0 (h.t * distance - 0.002)` before resolving that single
contact; moreover a candidate the sphere does **not** already overlap at
the start is back-face culled (`sweepSphereTriangle` returns no hit when
the direction is not approaching the face, `denominator > -1e-6`) —
triangles already overlapping at the start instead return an immediate
`t = 0` contact even when the body is moving away (see the
counterexample). -/
theorem sweptCollision_earliest_hit (rt : ℚ → ℚ) (b : PhysicsObject) (mesh : TriMesh)
    (displacement : Vec3) (root : BVHNode) (h : Contact)
    (hroot : mesh.bvh = some root)
    (hhit : (PhysicsObject.sweptEarliest rt b displacement
        (PhysicsObject.sweptCandidates rt b root displacement)).1 = some h) :
    (∃ tri ∈ PhysicsObject.sweptCandidates rt b root displacement,
        PhysicsObject.sweepSphereTriangle rt b b.position (displacement.normalize rt)
          (displacement.length rt) tri = some h) ∧
    (0 ≤ h.t ∧ h.t < 1) ∧
    (∀ tri ∈ PhysicsObject.sweptCandidates rt b root displacement,
      ∀ h2 : Contact,
        PhysicsObject.sweepSphereTriangle rt b b.position (displacement.normalize rt)
            (displacement.length rt) tri = some h2 → h.t ≤ h2.t) ∧
    PhysicsObject.sweptCollision rt b mesh displacement =
      PhysicsObject.handleCollisionResponse rt
        { b with position := b.position.add ((displacement.normalize rt).multiplyScalar
            (max 0 (h.t * displacement.length rt - 1 / 500))) } h mesh ∧
    (∀ tri : Triangle,
        ¬ Vec3.distanceTo rt b.position (tri.closestPointToPoint b.position) < b.radius →
        (displacement.normalize rt).dot (Triangle.normal rt tri) > -(1 / 1000000) →
        PhysicsObject.sweepSphereTriangle rt b b.position (displacement.normalize rt)
          (displacement.length rt) tri = none) := by
  have hinv := sweptFold_invariant rt b b.position (displacement.normalize rt)
    (displacement.length rt) (PhysicsObject.sweptCandidates rt b root displacement) (none, 1)
  rw [PhysicsObject.sweptEarliest] at hhit
  rcases hinv with heq | ⟨h', h1', h2', h3', tri, htri, hsweep⟩
  · rw [heq] at hhit
    exact absurd hhit (by simp)
  · rw [hhit] at h1'
    injection h1' with h1'
    subst h1'
    have hne : PhysicsObject.sweptCandidates rt b root displacement ≠ [] := by
      intro hemp
      rw [hemp] at hhit
      exact absurd hhit (by simp)
    refine ⟨⟨tri, htri, hsweep⟩, ⟨(sweepSphereTriangle_t_range rt b _ _ _ _ _ hsweep).1, h3'⟩,
      ?_, ?_, ?_⟩
    · intro tri2 htri2 hc2 hs2
      have := sweptFold_min rt b b.position (displacement.normalize rt)
        (displacement.length rt) (PhysicsObject.sweptCandidates rt b root displacement)
        (none, 1) tri2 htri2 hc2 hs2
      rw [h2'] at this
      exact this
    · rw [PhysicsObject.sweptCollision, hroot]
      dsimp only
      rw [if_neg hne]
      rw [PhysicsObject.sweptEarliest, hhit]
    · intro tri2 hov hden
      exact sweepSphereTriangle_culled rt b _ _ _ tri2 hov hden

/-- Square-root table for the witness scene (only perfect squares occur). -/
def rtW : ℚ → ℚ := fun q =>
  if q = 16 then 4 else if q = 9 then 3 else if q = 160000 then 400
  else if q = 1 then 1 else 0

/-- A floor triangle with upward unit normal (0,1,0). -/
def triW : Triangle := ⟨⟨-10, 0, -10⟩, ⟨0, 0, 10⟩, ⟨10, 0, -10⟩⟩

def rootW : BVHNode := buildBVH [triW]

def meshW : TriMesh := ⟨[triW], some rootW, 7 / 10, 1 / 2⟩

/-- A unit sphere 3 units above the floor. -/
def sphereW : PhysicsObject := PhysicsObject.make 1 ⟨0, 3, 0⟩ ⟨0, -40, 0⟩

/-- The swept hit of the witness: time of impact 1/2 along the downward
displacement (0,-4,0), grazing contact at the origin. -/
def hitW : Contact := ⟨1 / 2, ⟨0, 0, 0⟩, ⟨0, 1, 0⟩, 0, triW⟩

set_option maxHeartbeats 4000000 in
/-- Witness: the downward sweep of the unit sphere from (0,3,0) by
(0,-4,0) hits the floor triangle at t = 1/2, and `sweptCollision` advances
the position by max 0 (t*distance - 0.002) before resolving that hit. -/
theorem sweptCollision_earliest_hit_witness :
    meshW.bvh = some rootW ∧
    (PhysicsObject.sweptEarliest rtW sphereW ⟨0, -4, 0⟩
        (PhysicsObject.sweptCandidates rtW sphereW rootW ⟨0, -4, 0⟩)).1 = some hitW ∧
    PhysicsObject.sweptCollision rtW sphereW meshW ⟨0, -4, 0⟩ =
      PhysicsObject.handleCollisionResponse rtW
        { sphereW with position :=
            sphereW.position.add ((Vec3.normalize rtW ⟨0, -4, 0⟩).multiplyScalar
              (max 0 (hitW.t * Vec3.length rtW ⟨0, -4, 0⟩ - 1 / 500))) } hitW meshW := by
  have h1 : meshW.bvh = some rootW := rfl
  have hc : PhysicsObject.sweptCandidates rtW sphereW rootW ⟨0, -4, 0⟩ = [triW] := by
    norm_num [PhysicsObject.sweptCandidates, querySphere6, rootW, buildBVH, buildAux,
      qs6Go, nodeCount, unionAABB, Triangle.computeAABB, AABB.union,
      AABB.intersectsSphere, AABB.closestTo, clampQ, Vec3.distanceToSquared,
      Vec3.lengthSq, Vec3.dot_def, Vec3.sub, Triangle.centroid, Vec3.add,
      Vec3.multiplyScalar, List.insertionSort, List.orderedInsert, nodeAABB,
      AABB.center, sortByCentroid, centroidAxis, longestAxis, sphereW,
      PhysicsObject.make, Vec3.length, rtW, triW]
  have h2 : (PhysicsObject.sweptEarliest rtW sphereW ⟨0, -4, 0⟩
      (PhysicsObject.sweptCandidates rtW sphereW rootW ⟨0, -4, 0⟩)).1 = some hitW := by
    rw [hc]
    norm_num [PhysicsObject.sweptEarliest, sweptStep, PhysicsObject.sweepSphereTriangle,
      PhysicsObject.getSweptAABB, AABB.intersectsAABB, Triangle.computeAABB,
      Triangle.closestPointToPoint, Triangle.normal, Triangle.edge1, Triangle.edge2,
      Vec3.cross, Vec3.normalize, Vec3.length, Vec3.lengthSq, Vec3.dot_def, Vec3.sub,
      Vec3.add, Vec3.multiplyScalar, Vec3.divideScalar, Vec3.distanceTo,
      Vec3.distanceToSquared, clampQ, sphereW, PhysicsObject.make, rtW, triW, hitW]
  exact ⟨h1, h2,
    (sweptCollision_earliest_hit rtW sphereW meshW ⟨0, -4, 0⟩ rootW hitW h1 h2).2.2.2.1⟩

/-- Square-root table for the counterexample scene. -/
def rtD : ℚ → ℚ := fun q => if q = 1 / 4 then 1 / 2 else if q = 160000 then 400 else 0

/-- A floor triangle whose stored normal points **down**: (0,-1,0). -/
def triD : Triangle := ⟨⟨-10, 0, -10⟩, ⟨10, 0, -10⟩, ⟨0, 0, 10⟩⟩

/-- A unit sphere half-embedded in the floor. -/
def sphereD : PhysicsObject := PhysicsObject.make 1 ⟨0, 1/2, 0⟩ ⟨0, -1, 0⟩

/-- Counterexample to C3 as stated: a triangle the body is moving away from
(the cull test `denominator > -1e-6` holds: the direction (0,-1,0) dotted
with the face normal gives 1) is **not** skipped when the sphere already
overlaps it at the start of the step — `sweepSphereTriangle` returns an
immediate `t = 0` hit for it. -/
theorem sweep_overlap_not_culled_counterexample :
    Vec3.dot ⟨0, -1, 0⟩ (Triangle.normal rtD triD) > -(1 / 1000000) ∧
    PhysicsObject.sweepSphereTriangle rtD sphereD sphereD.position ⟨0, -1, 0⟩ 1 triD =
      some ⟨0, ⟨0, 0, 0⟩, ⟨0, 1, 0⟩, 1 / 2, triD⟩ := by
  constructor
  · norm_num [Triangle.normal, Triangle.edge1, Triangle.edge2, Vec3.cross,
      Vec3.normalize, Vec3.length, Vec3.lengthSq, Vec3.dot_def, Vec3.sub,
      Vec3.divideScalar, rtD, triD]
  · norm_num [PhysicsObject.sweepSphereTriangle, PhysicsObject.getSweptAABB,
      AABB.intersectsAABB, Triangle.computeAABB, Triangle.closestPointToPoint,
      Triangle.normal, Triangle.edge1, Triangle.edge2, Vec3.cross, Vec3.normalize,
      Vec3.length, Vec3.lengthSq, Vec3.dot_def, Vec3.sub, Vec3.add,
      Vec3.multiplyScalar, Vec3.divideScalar, Vec3.distanceTo, Vec3.distanceToSquared,
      sphereD, PhysicsObject.make, rtD, triD]

/-- C4: `collideWithTriangleMesh` dispatches to the swept test exactly when
the squared per-step displacement `|velocity*dt|²` exceeds `(radius*0.5)²`
(equivalently, when the displacement length exceeds half the radius, for a
correct square-root oracle), and otherwise to the discrete test; the
discrete test queries the BVH at the current position with radius
`radius*1.5` and, when its closest-point pass finds any contacts, resolves
exactly one contact — one of greatest penetration. -/
theorem collideWithTriangleMesh_modes (rt : ℚ → ℚ) (b : PhysicsObject) (mesh : TriMesh)
    (dt : ℚ) (root : BVHNode)
    (hroot : mesh.bvh = some root) (hne : mesh.triangles ≠ [])
    (hrt0 : 0 ≤ rt (b.velocity.multiplyScalar dt).lengthSq)
    (hrt2 : rt (b.velocity.multiplyScalar dt).lengthSq *
        rt (b.velocity.multiplyScalar dt).lengthSq = (b.velocity.multiplyScalar dt).lengthSq)
    (hrad : 0 ≤ b.radius) :
    (PhysicsObject.collideWithTriangleMesh rt b mesh dt =
      if (b.velocity.multiplyScalar dt).lengthSq >
          (b.radius * (1 / 2)) * (b.radius * (1 / 2)) then
        PhysicsObject.sweptCollision rt b mesh (b.velocity.multiplyScalar dt)
      else PhysicsObject.discreteCollision rt b mesh) ∧
    (discreteContacts rt b (querySphere6 root b.position (b.radius * (3 / 2)) 50) ≠ [] →
      ∃ c ∈ discreteContacts rt b (querySphere6 root b.position (b.radius * (3 / 2)) 50),
        (∀ c2 ∈ discreteContacts rt b (querySphere6 root b.position (b.radius * (3 / 2)) 50),
            c2.penetration ≤ c.penetration) ∧
        PhysicsObject.discreteCollision rt b mesh =
          PhysicsObject.handleCollisionResponse rt b c mesh) := by
  constructor
  · have h0 : ¬ (mesh.bvh = none ∨ mesh.triangles = []) := by
      rw [hroot]; simp [hne]
    have hiff : Vec3.length rt (b.velocity.multiplyScalar dt) > b.radius * (1 / 2) ↔
        (b.velocity.multiplyScalar dt).lengthSq >
          (b.radius * (1 / 2)) * (b.radius * (1 / 2)) := by
      simp only [Vec3.length]
      constructor
      · intro hgt
        have hr2 : (0 : ℚ) ≤ b.radius * (1 / 2) := by linarith
        have hpos := mul_pos (sub_pos.mpr hgt)
          (by linarith : (0 : ℚ) < rt (b.velocity.multiplyScalar dt).lengthSq +
            b.radius * (1 / 2))
        nlinarith [hpos, hrt2]
      · intro hgt
        by_contra hle
        push_neg at hle
        have hr2 : (0 : ℚ) ≤ b.radius * (1 / 2) := by linarith
        have h3 : rt (b.velocity.multiplyScalar dt).lengthSq *
            rt (b.velocity.multiplyScalar dt).lengthSq ≤
            (b.radius * (1 / 2)) * (b.radius * (1 / 2)) :=
          mul_le_mul hle hle hrt0 hr2
        rw [hrt2] at h3
        linarith
    simp only [PhysicsObject.collideWithTriangleMesh]
    rw [if_neg h0]
    exact if_congr hiff rfl rfl
  · intro hcne
    set contacts := discreteContacts rt b (querySphere6 root b.position (b.radius * (3 / 2)) 50)
      with hcdef
    haveI : IsTotal Contact (fun c1 c2 => c2.penetration ≤ c1.penetration) :=
      ⟨fun a c => le_total c.penetration a.penetration⟩
    haveI : IsTrans Contact (fun c1 c2 => c2.penetration ≤ c1.penetration) :=
      ⟨fun a c e hac hce => le_trans hce hac⟩
    have hperm := List.perm_insertionSort
      (fun c1 c2 => c2.penetration ≤ c1.penetration) contacts
    have hsorted := List.sorted_insertionSort
      (fun c1 c2 => c2.penetration ≤ c1.penetration) contacts
    rcases hsort : List.insertionSort
        (fun c1 c2 => c2.penetration ≤ c1.penetration) contacts with _ | ⟨c, restS⟩
    · rw [hsort] at hperm
      exact absurd (hperm.symm.eq_nil ▸ rfl : contacts = []) hcne
    · refine ⟨c, ?_, ?_, ?_⟩
      · exact (hperm.mem_iff).mp (hsort ▸ List.mem_cons_self c restS)
      · intro c2 hc2
        have hmem2 := (hperm.mem_iff).mpr hc2
        rw [hsort] at hmem2
        rcases List.mem_cons.mp hmem2 with heq | hmem
        · rw [heq]
        · rw [hsort] at hsorted
          exact List.rel_of_sorted_cons hsorted c2 hmem
      · have hcand : querySphere6 root b.position (b.radius * (3 / 2)) 50 ≠ [] := by
          intro hemp
          rw [hcdef, hemp] at hcne
          exact hcne rfl
        rw [PhysicsObject.discreteCollision, hroot]
        dsimp only
        rw [if_neg hcand, if_neg (hcdef ▸ hcne), ← hcdef, hsort]

/-- Square-root table for the slow-mover witness. -/
def rtV : ℚ → ℚ := fun q => if q = 1 / 100 then 1 / 10 else if q = 1 / 4 then 1 / 2 else 0

/-- A slowly sinking unit sphere (displacement 0.1 per step, below the
half-radius CCD threshold). -/
def sphereV : PhysicsObject := PhysicsObject.make 1 ⟨0, 1/2, 0⟩ ⟨0, -1, 0⟩

/-- Witness: the slow sphere above the floor mesh satisfies every
hypothesis of the mode-dispatch theorem at dt = 0.1. -/
theorem collideWithTriangleMesh_modes_witness :
    (meshW.bvh = some rootW ∧ meshW.triangles ≠ [] ∧
      0 ≤ rtV (sphereV.velocity.multiplyScalar (1 / 10)).lengthSq ∧
      rtV (sphereV.velocity.multiplyScalar (1 / 10)).lengthSq *
          rtV (sphereV.velocity.multiplyScalar (1 / 10)).lengthSq =
        (sphereV.velocity.multiplyScalar (1 / 10)).lengthSq ∧
      0 ≤ sphereV.radius) ∧
    PhysicsObject.collideWithTriangleMesh rtV sphereV meshW (1 / 10) =
      (if (sphereV.velocity.multiplyScalar (1 / 10)).lengthSq >
          (sphereV.radius * (1 / 2)) * (sphereV.radius * (1 / 2)) then
        PhysicsObject.sweptCollision rtV sphereV meshW
          (sphereV.velocity.multiplyScalar (1 / 10))
      else PhysicsObject.discreteCollision rtV sphereV meshW) := by
  have ha : meshW.bvh = some rootW := rfl
  have hb : meshW.triangles ≠ [] := by simp [meshW]
  have hc : 0 ≤ rtV (sphereV.velocity.multiplyScalar (1 / 10)).lengthSq := by
    norm_num [rtV, sphereV, PhysicsObject.make, Vec3.multiplyScalar, Vec3.lengthSq,
      Vec3.dot_def]
  have hd : rtV (sphereV.velocity.multiplyScalar (1 / 10)).lengthSq *
      rtV (sphereV.velocity.multiplyScalar (1 / 10)).lengthSq =
      (sphereV.velocity.multiplyScalar (1 / 10)).lengthSq := by
    norm_num [rtV, sphereV, PhysicsObject.make, Vec3.multiplyScalar, Vec3.lengthSq,
      Vec3.dot_def]
  have he : 0 ≤ sphereV.radius := by
    norm_num [sphereV, PhysicsObject.make]
  exact ⟨⟨ha, hb, hc, hd, he⟩,
    (collideWithTriangleMesh_modes rtV sphereV meshW (1 / 10) rootW ha hb hc hd he).1⟩

/-
  SpatialHashGrid.  The class itself is not part of the sources (only a
  call site in debug.js survives), so the definitions below are modelled
  from the spec's description of the grid: fixed cell size, an object is
  registered in every integer cell its AABB overlaps, and `queryNearby`
  unions the contents of every cell overlapping the query sphere into a
  de-duplicated list.
-/

/-- Modelled from the spec: the integer cell coordinate of a scalar
coordinate, `⌊q / cellSize⌋`. -/
def cellIdx (s q : ℚ) : ℤ := ⌊q / s⌋

/-- Modelled from the spec: the cells touched by the interval `[lo, hi]`
along one axis. -/
def cellRange (s lo hi : ℚ) : List ℤ :=
  (List.range (cellIdx s hi - cellIdx s lo + 1).toNat).map
    fun n : ℕ => cellIdx s lo + (n : ℤ)

/-- Modelled from the spec: all integer cells overlapped by a box. -/
def cellsOfBox (s : ℚ) (b : AABB) : List (ℤ × ℤ × ℤ) :=
  cellRange s b.min.x b.max.x ×ˢ (cellRange s b.min.y b.max.y ×ˢ cellRange s b.min.z b.max.z)

/-- Modelled from the spec: the world-space cube of a cell. -/
def cellBox (s : ℚ) (c : ℤ × ℤ × ℤ) : AABB :=
  ⟨⟨(c.1 : ℚ) * s, (c.2.1 : ℚ) * s, (c.2.2 : ℚ) * s⟩,
   ⟨(c.1 + 1 : ℤ) * s, (c.2.1 + 1 : ℤ) * s, (c.2.2 + 1 : ℤ) * s⟩⟩

/-- Modelled from the spec: a registered static collider (an id and its
AABB). -/
structure SObj where
  id : ℕ
  box : AABB
deriving DecidableEq, Repr

/-- Modelled from the spec: the grid, a fixed cell size plus the registered
objects (an object is looked up through every cell its box overlaps). -/
structure SpatialHashGrid where
  cellSize : ℚ
  objects : List SObj
deriving DecidableEq, Repr

/-- Modelled from the spec: `queryNearby(point, radius)` unions the
contents of every cell overlapping the sphere of radius `r` around `point`
(the cells of the sphere's bounding box, filtered by the exact cube-sphere
overlap test) and de-duplicates the result. -/
def SpatialHashGrid.queryNearby (g : SpatialHashGrid) (point : Vec3) (r : ℚ) : List SObj :=
  let qbox : AABB := ⟨⟨point.x - r, point.y - r, point.z - r⟩,
                     ⟨point.x + r, point.y + r, point.z + r⟩⟩
  let qcells := (cellsOfBox g.cellSize qbox).filter
    fun c => decide ((cellBox g.cellSize c).intersectsSphere point r)
  (g.objects.filter fun o =>
    decide (∃ c ∈ qcells, c ∈ cellsOfBox g.cellSize o.box)).dedup

theorem mem_cellRange (s lo hi : ℚ) (i : ℤ) :
    i ∈ cellRange s lo hi ↔ cellIdx s lo ≤ i ∧ i ≤ cellIdx s hi := by
  unfold cellRange
  simp only [List.mem_map, List.mem_range]
  constructor
  · rintro ⟨n, hn, rfl⟩
    omega
  · rintro ⟨h1, h2⟩
    exact ⟨(i - cellIdx s lo).toNat, by omega, by omega⟩

theorem mem_cellsOfBox (s : ℚ) (b : AABB) (c : ℤ × ℤ × ℤ) :
    c ∈ cellsOfBox s b ↔
      c.1 ∈ cellRange s b.min.x b.max.x ∧ c.2.1 ∈ cellRange s b.min.y b.max.y ∧
      c.2.2 ∈ cellRange s b.min.z b.max.z := by
  rcases c with ⟨i, j, k⟩
  unfold cellsOfBox
  rw [List.mem_product, List.mem_product]

theorem cellIdx_mono (s a b : ℚ) (hs : 0 < s) (hab : a ≤ b) :
    cellIdx s a ≤ cellIdx s b := by
  unfold cellIdx
  exact Int.floor_le_floor (by gcongr)

theorem cellIdx_mul_le (s q : ℚ) (hs : 0 < s) : (cellIdx s q : ℚ) * s ≤ q := by
  unfold cellIdx
  have h := Int.floor_le (q / s)
  have h2 := mul_le_mul_of_nonneg_right h (le_of_lt hs)
  rwa [div_mul_cancel₀ q (ne_of_gt hs)] at h2

theorem le_cellIdx_succ_mul (s q : ℚ) (hs : 0 < s) :
    q ≤ ((cellIdx s q + 1 : ℤ) : ℚ) * s := by
  unfold cellIdx
  have h := Int.lt_floor_add_one (q / s)
  have h2 := mul_le_mul_of_nonneg_right (le_of_lt h) (le_of_lt hs)
  rw [div_mul_cancel₀ q (ne_of_gt hs)] at h2
  push_cast
  push_cast at h2
  linarith

set_option maxHeartbeats 2000000 in
/-- C8: `SpatialHashGrid.queryNearby(point, r)` misses no registered
collider truly within `r` of `point` (distance from `point` to the
object's box at most `r`), and the returned list is de-duplicated. -/
theorem queryNearby_no_false_negatives (g : SpatialHashGrid) (point : Vec3) (r : ℚ)
    (o : SObj) (hs : 0 < g.cellSize) (hr : 0 ≤ r) (ho : o ∈ g.objects)
    (hwf : o.box.min.x ≤ o.box.max.x ∧ o.box.min.y ≤ o.box.max.y ∧
      o.box.min.z ≤ o.box.max.z)
    (hdist : point.distanceToSquared (o.box.closestTo point) ≤ r * r) :
    o ∈ g.queryNearby point r ∧ (g.queryNearby point r).Nodup := by
  obtain ⟨hw1, hw2, hw3⟩ := hwf
  refine ⟨?_, ?_⟩
  swap
  · simp only [SpatialHashGrid.queryNearby]
    exact List.nodup_dedup _
  have hcseq : o.box.closestTo point =
      ⟨clampQ point.x o.box.min.x o.box.max.x, clampQ point.y o.box.min.y o.box.max.y,
        clampQ point.z o.box.min.z o.box.max.z⟩ := rfl
  set cx := clampQ point.x o.box.min.x o.box.max.x with hcx
  set cy := clampQ point.y o.box.min.y o.box.max.y with hcy
  set cz := clampQ point.z o.box.min.z o.box.max.z with hcz
  rw [hcseq] at hdist
  have hcomp : (point.x - cx) * (point.x - cx) + (point.y - cy) * (point.y - cy) +
      (point.z - cz) * (point.z - cz) ≤ r * r := by
    simpa [Vec3.distanceToSquared, Vec3.lengthSq, Vec3.dot_def] using hdist
  have hxlo : point.x - r ≤ cx := by
    nlinarith [hcomp, hr, mul_self_nonneg (point.y - cy), mul_self_nonneg (point.z - cz),
      mul_self_nonneg (point.x - cx + r), mul_self_nonneg (point.x - cx - r)]
  have hxhi : cx ≤ point.x + r := by
    nlinarith [hcomp, hr, mul_self_nonneg (point.y - cy), mul_self_nonneg (point.z - cz),
      mul_self_nonneg (point.x - cx + r), mul_self_nonneg (point.x - cx - r)]
  have hylo : point.y - r ≤ cy := by
    nlinarith [hcomp, hr, mul_self_nonneg (point.x - cx), mul_self_nonneg (point.z - cz),
      mul_self_nonneg (point.y - cy + r), mul_self_nonneg (point.y - cy - r)]
  have hyhi : cy ≤ point.y + r := by
    nlinarith [hcomp, hr, mul_self_nonneg (point.x - cx), mul_self_nonneg (point.z - cz),
      mul_self_nonneg (point.y - cy + r), mul_self_nonneg (point.y - cy - r)]
  have hzlo : point.z - r ≤ cz := by
    nlinarith [hcomp, hr, mul_self_nonneg (point.x - cx), mul_self_nonneg (point.y - cy),
      mul_self_nonneg (point.z - cz + r), mul_self_nonneg (point.z - cz - r)]
  have hzhi : cz ≤ point.z + r := by
    nlinarith [hcomp, hr, mul_self_nonneg (point.x - cx), mul_self_nonneg (point.y - cy),
      mul_self_nonneg (point.z - cz + r), mul_self_nonneg (point.z - cz - r)]
  have hlox : o.box.min.x ≤ cx := by rw [hcx]; unfold clampQ; exact le_max_left _ _
  have hhix : cx ≤ o.box.max.x := by
    rw [hcx]; unfold clampQ; exact max_le hw1 (min_le_right _ _)
  have hloy : o.box.min.y ≤ cy := by rw [hcy]; unfold clampQ; exact le_max_left _ _
  have hhiy : cy ≤ o.box.max.y := by
    rw [hcy]; unfold clampQ; exact max_le hw2 (min_le_right _ _)
  have hloz : o.box.min.z ≤ cz := by rw [hcz]; unfold clampQ; exact le_max_left _ _
  have hhiz : cz ≤ o.box.max.z := by
    rw [hcz]; unfold clampQ; exact max_le hw3 (min_le_right _ _)
  have hcell_obox : (cellIdx g.cellSize cx, cellIdx g.cellSize cy, cellIdx g.cellSize cz) ∈
      cellsOfBox g.cellSize o.box := by
    rw [mem_cellsOfBox]
    exact ⟨(mem_cellRange _ _ _ _).mpr
        ⟨cellIdx_mono _ _ _ hs hlox, cellIdx_mono _ _ _ hs hhix⟩,
      (mem_cellRange _ _ _ _).mpr
        ⟨cellIdx_mono _ _ _ hs hloy, cellIdx_mono _ _ _ hs hhiy⟩,
      (mem_cellRange _ _ _ _).mpr
        ⟨cellIdx_mono _ _ _ hs hloz, cellIdx_mono _ _ _ hs hhiz⟩⟩
  have hcell_qbox : (cellIdx g.cellSize cx, cellIdx g.cellSize cy, cellIdx g.cellSize cz) ∈
      cellsOfBox g.cellSize ⟨⟨point.x - r, point.y - r, point.z - r⟩,
        ⟨point.x + r, point.y + r, point.z + r⟩⟩ := by
    rw [mem_cellsOfBox]
    exact ⟨(mem_cellRange _ _ _ _).mpr
        ⟨cellIdx_mono _ _ _ hs hxlo, cellIdx_mono _ _ _ hs hxhi⟩,
      (mem_cellRange _ _ _ _).mpr
        ⟨cellIdx_mono _ _ _ hs hylo, cellIdx_mono _ _ _ hs hyhi⟩,
      (mem_cellRange _ _ _ _).mpr
        ⟨cellIdx_mono _ _ _ hs hzlo, cellIdx_mono _ _ _ hs hzhi⟩⟩
  have hcube : (cellBox g.cellSize
      (cellIdx g.cellSize cx, cellIdx g.cellSize cy, cellIdx g.cellSize cz)).containsPt
      ⟨cx, cy, cz⟩ :=
    ⟨cellIdx_mul_le _ _ hs, le_cellIdx_succ_mul _ _ hs,
     cellIdx_mul_le _ _ hs, le_cellIdx_succ_mul _ _ hs,
     cellIdx_mul_le _ _ hs, le_cellIdx_succ_mul _ _ hs⟩
  have hinter := intersectsSphere_of_mem
    (cellBox g.cellSize (cellIdx g.cellSize cx, cellIdx g.cellSize cy, cellIdx g.cellSize cz))
    point ⟨cx, cy, cz⟩ r hcube hdist
  simp only [SpatialHashGrid.queryNearby]
  rw [List.mem_dedup, List.mem_filter]
  refine ⟨ho, ?_⟩
  rw [decide_eq_true_eq]
  refine ⟨(cellIdx g.cellSize cx, cellIdx g.cellSize cy, cellIdx g.cellSize cz),
    List.mem_filter.mpr ⟨hcell_qbox, ?_⟩, hcell_obox⟩
  rw [decide_eq_true_eq]
  exact hinter

/-- Modelled from the spec: a one-object grid with unit cells. -/
def gridX : SpatialHashGrid := ⟨1, [⟨0, ⟨⟨0, 0, 0⟩, ⟨1, 1, 1⟩⟩⟩]⟩

def objX : SObj := ⟨0, ⟨⟨0, 0, 0⟩, ⟨1, 1, 1⟩⟩⟩

/-- Witness: the unit-cube collider, one unit away from the query point,
is found by `queryNearby` with radius 3. -/
theorem queryNearby_no_false_negatives_witness :
    (0 < gridX.cellSize ∧ (0 : ℚ) ≤ 3 ∧ objX ∈ gridX.objects ∧
      (objX.box.min.x ≤ objX.box.max.x ∧ objX.box.min.y ≤ objX.box.max.y ∧
        objX.box.min.z ≤ objX.box.max.z) ∧
      Vec3.distanceToSquared ⟨2, 0, 0⟩ (objX.box.closestTo ⟨2, 0, 0⟩) ≤ 3 * 3) ∧
    (objX ∈ gridX.queryNearby ⟨2, 0, 0⟩ 3 ∧ (gridX.queryNearby ⟨2, 0, 0⟩ 3).Nodup) := by
  have h1 : (0 : ℚ) < gridX.cellSize := by norm_num [gridX]
  have h2 : (0 : ℚ) ≤ 3 := by norm_num
  have h3 : objX ∈ gridX.objects := by simp [gridX, objX]
  have h4 : objX.box.min.x ≤ objX.box.max.x ∧ objX.box.min.y ≤ objX.box.max.y ∧
      objX.box.min.z ≤ objX.box.max.z := by norm_num [objX]
  have h5 : Vec3.distanceToSquared ⟨2, 0, 0⟩ (objX.box.closestTo ⟨2, 0, 0⟩) ≤ 3 * 3 := by
    norm_num [objX, AABB.closestTo, clampQ, Vec3.distanceToSquared, Vec3.lengthSq,
      Vec3.dot_def]
  exact ⟨⟨h1, h2, h3, h4, h5⟩,
    queryNearby_no_false_negatives gridX ⟨2, 0, 0⟩ 3 objX h1 h2 h3 h4 h5⟩
